import Mathlib

/-!
# olake: MySQL driver connection security

A shallow embedding of `utils/ssl.go` (`SSLConfig.Validate`,
`CreateTLSConfiguration`) and of `drivers/mysql/internal/config.go`
(`Config.URI`, `registerTLSConfig`), followed by the theorems that settle the
claims made about them.

Conventions of the embedding:
* a Go `error` is an `Option String` holding the error's message, `none` is `nil`;
* a function returning `(value, error)` returns `Except String value`;
* a pointer that may be `nil` is an `Option`;
* a method with a pointer receiver that writes to the receiver returns the
  receiver's new value next to its result;
* process-wide state (the driver's TLS registry) is passed in and returned.
-/

set_option autoImplicit false
set_option maxRecDepth 100000

namespace utils

/-! ## utils/ssl.go -/

/-- The constant `SSLModeRequire`. -/
def SSLModeRequire : String := "require"
/-- The constant `SSLModeDisable`. -/
def SSLModeDisable : String := "disable"
/-- The constant `SSLModeVerifyCA`. -/
def SSLModeVerifyCA : String := "verify-ca"
/-- The constant `SSLModeVerifyFull`. -/
def SSLModeVerifyFull : String := "verify-full"
/-- The constant `Unknown`. -/
def Unknown : String := ""

/-- The struct `SSLConfig`. -/
structure SSLConfig where
  Mode : String
  ServerCA : String
  ClientCert : String
  ClientKey : String
deriving DecidableEq, Repr

/-- The method `(sc *SSLConfig) Validate() error`; the receiver may be `nil`. -/
def SSLConfig.Validate (sc : Option SSLConfig) : Option String :=
  match sc with
  | none => some "'ssl' config is required"
  | some sc =>
    if sc.Mode = Unknown then
      some "'ssl.mode' is required parameter"
    else if sc.Mode = SSLModeVerifyCA ∨ sc.Mode = SSLModeVerifyFull then
      if sc.ServerCA = "" then
        some "'ssl.server_ca' is required parameter"
      else if sc.ClientCert = "" then
        some "'ssl.client_cert' is required parameter"
      else if sc.ClientKey = "" then
        some "'ssl.client_key' is required parameter"
      else
        none
    else
      none

end utils

/-! ## crypto/tls and crypto/x509, as far as `CreateTLSConfiguration` uses them -/

namespace x509

/-- A certificate pool (`*x509.CertPool`): the certificates it holds, each an
uninterpreted block. -/
abbrev CertPool := List String

end x509

namespace tls

/-- A client certificate with its key (`tls.Certificate`), uninterpreted. -/
abbrev Certificate := String × String

/-- The constant `tls.VersionTLS12`. -/
def VersionTLS12 : Nat := 0x0303

/-- The fields of `tls.Config` that `CreateTLSConfiguration` can set; every
other field keeps its zero value. `RootCAs` is a pointer, `none` is `nil`. -/
structure Config where
  MinVersion : Nat
  RootCAs : Option x509.CertPool
  Certificates : List Certificate
  InsecureSkipVerify : Bool
deriving DecidableEq, Repr

end tls

/-- The functions of the Go standard library whose results the embedding does
not compute. They are parameters: nothing is assumed about which texts parse.
* `AppendCertsFromPEM pem` is `some pool` when `(*CertPool).AppendCertsFromPEM`
  on a new pool returns `true` (at least one certificate was parsed), with
  `pool` the pool after the call, and `none` when it returns `false`;
* `X509KeyPair cert key` is `tls.X509KeyPair`, `.error msg` carrying `err.Error()`;
* `ToLower` is `unicode.ToLower`, which `strings.ToLower` applies to every
  character of its argument. -/
structure Stdlib where
  AppendCertsFromPEM : String → Option x509.CertPool
  X509KeyPair : String → String → Except String tls.Certificate
  ToLower : Char → Char

namespace utils

/-- The function `CreateTLSConfiguration(sslConfig *SSLConfig) (*tls.Config, error)`. -/
def CreateTLSConfiguration (p : Stdlib) (sslConfig : Option SSLConfig) :
    Except String tls.Config :=
  match sslConfig with
  | none => .error "SSL configuration is nil"
  | some sslConfig =>
    let tlsConfig : tls.Config :=
      { MinVersion := tls.VersionTLS12, RootCAs := none, Certificates := [],
        InsecureSkipVerify := false }
    if sslConfig.Mode = SSLModeVerifyCA ∨ sslConfig.Mode = SSLModeVerifyFull then
      match p.AppendCertsFromPEM sslConfig.ServerCA with
      | none => .error "failed to append server CA certificate"
      | some caCertPool =>
        let tlsConfig := { tlsConfig with RootCAs := some caCertPool }
        let loaded : Except String tls.Config :=
          if sslConfig.ClientCert ≠ "" ∧ sslConfig.ClientKey ≠ "" then
            match p.X509KeyPair sslConfig.ClientCert sslConfig.ClientKey with
            | .error err => .error ("failed to load client certificate and key: " ++ err)
            | .ok cert => .ok { tlsConfig with Certificates := [cert] }
          else
            .ok tlsConfig
        match loaded with
        | .error e => .error e
        | .ok tlsConfig =>
          if sslConfig.Mode = SSLModeVerifyFull then
            .ok { tlsConfig with InsecureSkipVerify := false }
          else
            .ok { tlsConfig with InsecureSkipVerify := true }
    else if sslConfig.Mode = SSLModeRequire then
      .ok { tlsConfig with InsecureSkipVerify := true }
    else
      .ok tlsConfig

end utils

/-! ## fmt and net/url, as far as the driver code uses them

The Go standard library and the driver library `github.com/go-sql-driver/mysql`
are not part of the repository. What `Config.URI` calls from them is written
out below the way those libraries behave; each such definition says so. -/

namespace fmt

/-- Modelled from the spec: `fmt.Sprintf` is standard library, not under src/.
This is its verb `%d` on an `int`, which writes the `<port>` of the profile name
`custom-tls-<host>-<port>` and of the address: decimal digits, with a leading
`-` for a negative number. -/
def Sprintf_d (n : Int) : String :=
  match n with
  | Int.ofNat m => Nat.repr m
  | Int.negSucc m => "-" ++ Nat.repr (m + 1)

end fmt

namespace url

/-- Modelled from the spec: `net/url` is standard library, not under src/.
These are the two escaping modes that the DSN formatter reaches (through
`PathEscape` and `QueryEscape`). -/
inductive encoding where
  | encodePathSegment
  | encodeQueryComponent
deriving DecidableEq, Repr

/-- Modelled from the spec: `net/url` is not under src/. This is its function
`shouldEscape(c byte, mode encoding) bool` for the two modes above: letters,
digits and `-_.~` are never escaped; of the reserved `$&+,/:;=?@` a path
segment escapes `/;,?` and a query component all; every other byte is escaped. -/
def shouldEscape (c : Nat) (mode : encoding) : Bool :=
  if ('a'.toNat ≤ c ∧ c ≤ 'z'.toNat) ∨ ('A'.toNat ≤ c ∧ c ≤ 'Z'.toNat) ∨
      ('0'.toNat ≤ c ∧ c ≤ '9'.toNat) then
    false
  else if c = '-'.toNat ∨ c = '_'.toNat ∨ c = '.'.toNat ∨ c = '~'.toNat then
    false
  else if c = '$'.toNat ∨ c = '&'.toNat ∨ c = '+'.toNat ∨ c = ','.toNat ∨ c = '/'.toNat ∨
      c = ':'.toNat ∨ c = ';'.toNat ∨ c = '='.toNat ∨ c = '?'.toNat ∨ c = '@'.toNat then
    match mode with
    | .encodePathSegment =>
      decide (c = '/'.toNat ∨ c = ';'.toNat ∨ c = ','.toNat ∨ c = '?'.toNat)
    | .encodeQueryComponent => true
  else
    true

/-- Modelled from the spec: the table `upperhex` of `net/url` (not under src/),
read at index `i`. -/
def upperhex (i : Nat) : Char :=
  "0123456789ABCDEF".data.getD i '0'

/-- Modelled from the spec: what `escape` of `net/url` (not under src/) writes
for one byte `c` of its input. -/
def escapeByte (c : Nat) (mode : encoding) : List Char :=
  if shouldEscape c mode then
    if c = ' '.toNat ∧ mode = .encodeQueryComponent then
      ['+']
    else
      ['%', upperhex (c / 16), upperhex (c % 16)]
  else
    [Char.ofNat c]

/-- The bytes of a Go string (its UTF-8 encoding), as numbers. -/
def bytes (s : String) : List Nat :=
  (s.data.flatMap String.utf8EncodeChar).map UInt8.toNat

/-- Modelled from the spec: the function `escape(s string, mode encoding) string`
of `net/url` (not under src/): every byte of `s` is kept, turned into `+`, or
turned into `%XX`. -/
def escape (s : String) (mode : encoding) : String :=
  ⟨(bytes s).flatMap (fun c => escapeByte c mode)⟩

/-- Modelled from the spec: the function `url.QueryEscape` (not under src/). -/
def QueryEscape (s : String) : String := escape s .encodeQueryComponent

/-- Modelled from the spec: the function `url.PathEscape` (not under src/). -/
def PathEscape (s : String) : String := escape s .encodePathSegment

end url

namespace strings

/-- Modelled from the spec: `strings.ToLower` is standard library, not under
src/: every character of `s` is mapped by `unicode.ToLower`. -/
def ToLower (p : Stdlib) (s : String) : String := ⟨s.data.map p.ToLower⟩

end strings

/-! ## github.com/go-sql-driver/mysql, as far as the driver code uses it -/

namespace mysql

/-- Modelled from the spec: the struct `mysql.Config` of the driver library is
not under src/. These are the fields that `Config.URI` sets, and the two fields
(`CheckConnLiveness`, `MaxAllowedPacket`) whose zero value makes `FormatDSN`
write a parameter; every other field has its zero value, for which `FormatDSN`
writes nothing. `Params` is a Go map, given by its entries; `[]` is also the
`nil` map. -/
structure Config where
  User : String
  Passwd : String
  Net : String
  Addr : String
  DBName : String
  Params : List (String × String)
  AllowNativePasswords : Bool
  CheckConnLiveness : Bool
  MaxAllowedPacket : Int
  TLSConfig : String
deriving DecidableEq, Repr

/-- Modelled from the spec: the constant `defaultMaxAllowedPacket` of the driver
library (not under src/), 64 MiB. -/
def defaultMaxAllowedPacket : Int := 64 * 2 ^ 20

/-- Modelled from the spec: the helper `writeDSNParam(buf, hasParam, name, value)`
of the driver library (not under src/): the first parameter follows `?`, every
later one `&`, each written `name=value`. The state is the buffer with the
`hasParam` flag. -/
def writeDSNParam (st : String × Bool) (name value : String) : String × Bool :=
  let sep : String := if st.2 then "&" else "?"
  (st.1 ++ sep ++ name ++ "=" ++ value, true)

/-- The keys of a Go map given by its entries, in the order `sort.Strings`
puts them (bytewise, which on UTF-8 is the order of the characters). -/
def sortedKeys (m : List (String × String)) : List String :=
  List.insertionSort (fun a b : String => a.data ≤ b.data) (m.map Prod.fst).dedup

/-- The value `m[k]` of a Go map of strings given by its entries (`""` for a
missing key). -/
def mapIndex (m : List (String × String)) (k : String) : String :=
  (m.lookup k).getD ""

/-- Modelled from the spec: the first part of what `FormatDSN` of the driver
library (not under src/) writes, `[user[:password]@][net[(addr)]]/dbname`, the
database name path-escaped. -/
def Config.writeAddress (cfg : Config) : String :=
  let buf : String := ""
  let buf := if cfg.User.length > 0 then
      let buf := buf ++ cfg.User
      let buf := if cfg.Passwd.length > 0 then buf ++ ":" ++ cfg.Passwd else buf
      buf ++ "@"
    else buf
  let buf := if cfg.Net.length > 0 then
      let buf := buf ++ cfg.Net
      if cfg.Addr.length > 0 then buf ++ "(" ++ cfg.Addr ++ ")" else buf
    else buf
  buf ++ "/" ++ url.PathEscape cfg.DBName

/-- Modelled from the spec: the method `(cfg *Config) FormatDSN() string` of the
driver library is not under src/; the spec names its output "the DSN's native
parameter syntax" and does not spell it out, so the order of the clauses and
the escaping are taken from the library (release 1.8 and later, which
path-escape the database name). It writes `[user[:password]@][net[(addr)]]/dbname` and then
the parameters `?name=value&...&name=value`: here `allowNativePasswords=false`
unless `AllowNativePasswords`, `checkConnLiveness=false` unless
`CheckConnLiveness`, `tls=` with the query-escaped `TLSConfig` unless that is
empty, `maxAllowedPacket=` unless it has the default, and last the entries of
`Params`, sorted by key, each value query-escaped. -/
def Config.FormatDSN (cfg : Config) : String :=
  let st : String × Bool := (cfg.writeAddress, false)
  let st := if ¬ cfg.AllowNativePasswords then
      writeDSNParam st "allowNativePasswords" "false" else st
  let st := if ¬ cfg.CheckConnLiveness then
      writeDSNParam st "checkConnLiveness" "false" else st
  let st := if cfg.TLSConfig.length > 0 then
      writeDSNParam st "tls" (url.QueryEscape cfg.TLSConfig) else st
  let st := if cfg.MaxAllowedPacket ≠ defaultMaxAllowedPacket then
      writeDSNParam st "maxAllowedPacket" (fmt.Sprintf_d cfg.MaxAllowedPacket) else st
  let st := (sortedKeys cfg.Params).foldl
    (fun st param => writeDSNParam st param (url.QueryEscape (mapIndex cfg.Params param))) st
  st.1

/-- Modelled from the spec: the helper `readBool(input string) (value bool, valid bool)`
of the driver library (not under src/); only `valid` is used here. -/
def readBool (input : String) : Bool × Bool :=
  if input = "1" ∨ input = "true" ∨ input = "TRUE" ∨ input = "True" then (true, true)
  else if input = "0" ∨ input = "false" ∨ input = "FALSE" ∨ input = "False" then (false, true)
  else (false, false)

/-- The driver library's process-wide `tlsConfigRegistry`, a map from profile
name to profile (`none`: no entry). -/
abbrev Registry := String → Option tls.Config

/-- Modelled from the spec: the function `RegisterTLSConfig(key string, config *tls.Config) error`
of the driver library is not under src/; the spec names it `register(name, profile)`,
an overwrite of the named entry that fails only on a name the mechanism rejects.
The library rejects the keys that `readBool` accepts and those that are
`skip-verify` or `preferred` once lower-cased. -/
def RegisterTLSConfig (p : Stdlib) (key : String) (config : tls.Config)
    (reg : Registry) : Option String × Registry :=
  if (readBool key).2 ∨ strings.ToLower p key = "skip-verify" ∨
      strings.ToLower p key = "preferred" then
    (some ("key '" ++ key ++ "' is reserved"), reg)
  else
    (none, fun k => if k = key then some config else reg k)

end mysql

/-! ## drivers/mysql/internal/config.go -/

namespace driver

/-- The struct `Config`. `JDBCURLParams` is a Go map, given by its entries (`[]`
is also the `nil` map); `SSLConfig` is a pointer. The field `UpdateMethod`
(an `interface{}` that neither `URI` nor the checks of `Validate` read) is left out. -/
structure Config where
  Host : String
  Username : String
  Password : String
  Database : String
  Port : Int
  TLSSkipVerify : Bool
  MaxThreads : Int
  RetryCount : Int
  JDBCURLParams : List (String × String)
  SSLConfig : Option utils.SSLConfig
deriving DecidableEq, Repr

/-- The function `registerTLSConfig(name string, sslConfig *utils.SSLConfig) error`,
with the driver's registry before and after. -/
def registerTLSConfig (p : Stdlib) (name : String) (sslConfig : Option utils.SSLConfig)
    (reg : mysql.Registry) : Option String × mysql.Registry :=
  match utils.CreateTLSConfiguration p sslConfig with
  | .error err => (some err, reg)
  | .ok tlsConfig => mysql.RegisterTLSConfig p name tlsConfig reg

/-- The first block of `URI`, "Set default port if not specified": the receiver
after it. -/
def Config.URI.defaultPort (c : Config) : Config :=
  if c.Port = 0 then { c with Port := 3306 } else c

/-- The second block of `URI`, "Construct host string": the local `hostStr`. -/
def Config.URI.hostStr (c : Config) : String :=
  if c.Host = "" then "localhost" else c.Host

/-- The block "Apply TLS configuration" of `URI`: the driver config `cfg` and
the registry after it. The receiver `c` already has its port defaulted. -/
def Config.URI.applyTLS (p : Stdlib) (c : Config) (cfg : mysql.Config)
    (reg : mysql.Registry) : mysql.Config × mysql.Registry :=
  match c.SSLConfig with
  | some sslConfig =>
    if sslConfig.Mode = utils.SSLModeDisable then
      ({ cfg with TLSConfig := "false" }, reg)
    else if sslConfig.Mode = utils.SSLModeRequire then
      ({ cfg with TLSConfig := "true" }, reg)
    else if sslConfig.Mode = utils.SSLModeVerifyCA ∨
        sslConfig.Mode = utils.SSLModeVerifyFull then
      -- Register a custom TLS config with the MySQL driver
      let tlsConfigName : String := "custom-tls-" ++ c.Host ++ "-" ++ fmt.Sprintf_d c.Port
      let r := registerTLSConfig p tlsConfigName c.SSLConfig reg
      if r.1 = none then ({ cfg with TLSConfig := tlsConfigName }, r.2) else (cfg, r.2)
    else
      (cfg, reg)
  | none =>
    if c.TLSSkipVerify then ({ cfg with TLSConfig := "skip-verify" }, reg) else (cfg, reg)

/-- The struct literal `cfg := mysql.Config{...}` of `URI`; the fields it does
not name have their zero value. -/
def Config.URI.newCfg (c : Config) (hostStr : String) : mysql.Config where
  User := c.Username
  Passwd := c.Password
  Net := "tcp"
  Addr := hostStr ++ ":" ++ fmt.Sprintf_d c.Port
  DBName := c.Database
  AllowNativePasswords := true
  Params := []
  CheckConnLiveness := false
  MaxAllowedPacket := 0
  TLSConfig := ""

/-- The body of `(c *Config) URI() string` up to its `return`: the driver
config `cfg` it has built, the receiver after the call (whose `Port` may have
been defaulted) and the registry after the call. -/
def Config.URI.build (p : Stdlib) (c : Config) (reg : mysql.Registry) :
    mysql.Config × Config × mysql.Registry :=
  let c : Config := Config.URI.defaultPort c
  let hostStr : String := Config.URI.hostStr c
  let cfg : mysql.Config := Config.URI.newCfg c hostStr
  let r := Config.URI.applyTLS p c cfg reg
  -- Apply custom JDBC URL parameters
  let cfg : mysql.Config :=
    if c.JDBCURLParams.length > 0 then { r.1 with Params := c.JDBCURLParams } else r.1
  (cfg, c, r.2)

/-- The method `(c *Config) URI() string`: the DSN it returns, the receiver
after the call and the registry after the call. -/
def Config.URI (p : Stdlib) (c : Config) (reg : mysql.Registry) :
    String × Config × mysql.Registry :=
  let r := Config.URI.build p c reg
  (r.1.FormatDSN, r.2.1, r.2.2)

end driver

/-- The string `s` contains the string `sub` (`strings.Contains`). -/
def Contains (s sub : String) : Prop := sub.data <:+: s.data

instance (s sub : String) : Decidable (Contains s sub) := by
  unfold Contains; infer_instance

/-- The characters `&k=v` that `FormatDSN` writes for the entries of `Params`,
one after the other in the order of the sorted keys, each value query-escaped. -/
def paramClauses (m : List (String × String)) : List Char :=
  (mysql.sortedKeys m).flatMap
    (fun k => '&' :: (k.data ++ '=' :: (url.QueryEscape (mysql.mapIndex m k)).data))

namespace driver

/-- What `Config.Validate` uses from the repository that is not under src/: the
constants `constants.DefaultThreadCount` and `constants.DefaultRetryCount`, and
the generic struct check `utils.Validate`. They are parameters: nothing is
assumed about their values or about what the generic check rejects. -/
structure Deps where
  DefaultThreadCount : Int
  DefaultRetryCount : Int
  Validate : Config → Option String

/-- The method `(c *Config) Validate() error`: the error it returns and the
receiver after the call (its `Database`, `MaxThreads` and `RetryCount` may have
been given their default values). `fmt.Errorf` with `%s` and with `%w` puts the
message of its argument in place of the verb. -/
def Config.Validate (d : Deps) (c : Config) : Option String × Config :=
  if c.Host = "" then
    (some "empty host name", c)
  else if Contains c.Host "https" ∨ Contains c.Host "http" then
    (some ("host should not contain http or https: " ++ c.Host), c)
  -- Validate port
  else if c.Port ≤ 0 ∨ c.Port > 65535 then
    (some "invalid port number: must be between 1 and 65535", c)
  -- Validate required fields
  else if c.Username = "" then
    (some "username is required", c)
  else if c.Password = "" then
    (some "password is required", c)
  else
    -- Optional database name, default to 'mysql'
    let c : Config := if c.Database = "" then { c with Database := "mysql" } else c
    -- Set default number of threads if not provided
    let c : Config :=
      if c.MaxThreads ≤ 0 then { c with MaxThreads := d.DefaultThreadCount } else c
    -- Set default retry count if not provided
    let c : Config :=
      if c.RetryCount ≤ 0 then { c with RetryCount := d.DefaultRetryCount } else c
    -- Validate SSL configuration if provided
    match c.SSLConfig with
    | some sslConfig =>
      match utils.SSLConfig.Validate (some sslConfig) with
      | some err => (some ("invalid SSL configuration: " ++ err), c)
      | none => (d.Validate c, c)
    | none => (d.Validate c, c)

end driver

/-! ## Sample inputs, used where a statement is evaluated at a concrete input -/

/-- A stand-in for the standard library in which a PEM text parses exactly when
it is not empty, and lower-casing is that of the ASCII letters. -/
def sampleStdlib : Stdlib where
  AppendCertsFromPEM := fun pem => if pem = "" then none else some [pem]
  X509KeyPair := fun cert key =>
    if cert = "" ∨ key = "" then .error "tls: failed to find any PEM data in certificate input"
    else .ok (cert, key)
  ToLower := Char.toLower

/-- The registry before any profile has been registered. -/
def emptyRegistry : mysql.Registry := fun _ => none

/-- The config of the repository's tests (`TestURIWithSSLConfig`), with the
`SSLConfig` given as an argument. -/
def testConfig (ssl : Option utils.SSLConfig) : driver.Config where
  Host := "localhost"
  Username := "user"
  Password := "pass"
  Database := "testdb"
  Port := 3306
  TLSSkipVerify := false
  MaxThreads := 0
  RetryCount := 0
  JDBCURLParams := []
  SSLConfig := ssl

/-- The test config with Mode disable and an extra parameter whose key is `tls`. -/
def disableWithTLSParam : driver.Config :=
  { testConfig (some ⟨"disable", "", "", ""⟩) with
    JDBCURLParams := [("tls", "custom-tls-db-3306")] }

/-- The test config with Mode verify-ca, certificate fields that the sample
parsers accept, and the IPv6 loopback address as host. -/
def verifyCAOnIPv6 : driver.Config :=
  { testConfig (some ⟨"verify-ca", "ca-cert", "client-cert", "client-key"⟩) with
    Host := "[::1]" }

/-- A stand-in for the parts of the repository outside src/: both default
counts are 3 and the generic struct check accepts every config. -/
def sampleDeps : driver.Deps where
  DefaultThreadCount := 3
  DefaultRetryCount := 3
  Validate := fun _ => none

/-- The test config with Mode verify-ca and the certificate fields of
`TestConfigValidation`, which the sample parsers accept. -/
def verifyCAConfig : driver.Config :=
  testConfig (some ⟨"verify-ca", "ca-cert", "client-cert", "client-key"⟩)

/-- The test config with an extra parameter whose value holds a `/`. -/
def locParamConfig : driver.Config :=
  { testConfig none with JDBCURLParams := [("loc", "Asia/Kolkata")] }

/-! ## Theorems: `SSLConfig.Validate` -/

namespace utils

/-- C1: with Mode verify-ca or verify-full, `Validate` returns an error if and
only if at least one of ServerCA, ClientCert, ClientKey is empty; with Mode
disable or require it returns nil whatever the three certificate fields hold. -/
theorem validate_error_iff_missing_field (ca cert key : String) :
    ((SSLConfig.Validate (some ⟨SSLModeVerifyCA, ca, cert, key⟩)).isSome
        ↔ (ca = "" ∨ cert = "" ∨ key = "")) ∧
    ((SSLConfig.Validate (some ⟨SSLModeVerifyFull, ca, cert, key⟩)).isSome
        ↔ (ca = "" ∨ cert = "" ∨ key = "")) ∧
    SSLConfig.Validate (some ⟨SSLModeDisable, ca, cert, key⟩) = none ∧
    SSLConfig.Validate (some ⟨SSLModeRequire, ca, cert, key⟩) = none := by
  refine ⟨?_, ?_, ?_, ?_⟩
  · by_cases h1 : ca = "" <;> by_cases h2 : cert = "" <;> by_cases h3 : key = "" <;>
      simp [SSLConfig.Validate, SSLModeVerifyCA, SSLModeVerifyFull, Unknown, h1, h2, h3]
  · by_cases h1 : ca = "" <;> by_cases h2 : cert = "" <;> by_cases h3 : key = "" <;>
      simp [SSLConfig.Validate, SSLModeVerifyCA, SSLModeVerifyFull, Unknown, h1, h2, h3]
  · simp [SSLConfig.Validate, SSLModeVerifyCA, SSLModeVerifyFull, SSLModeDisable, Unknown]
  · simp [SSLConfig.Validate, SSLModeVerifyCA, SSLModeVerifyFull, SSLModeRequire, Unknown]

/-- C2: on a non-nil config `Validate` returns the missing-mode error
`'ssl.mode' is required parameter` exactly when Mode is the empty string. -/
theorem validate_missing_mode_iff (sc : SSLConfig) :
    SSLConfig.Validate (some sc) = some "'ssl.mode' is required parameter"
      ↔ sc.Mode = "" := by
  constructor
  · intro h
    by_contra hm
    simp only [SSLConfig.Validate, Unknown, hm, if_false] at h
    split_ifs at h <;> simp at h
  · intro h
    simp [SSLConfig.Validate, Unknown, h]

/-- C3: with Mode verify-ca or verify-full, `Validate` reports the first empty
field in the order server_ca, client_cert, client_key and no other: server_ca
exactly when ServerCA is empty, client_cert exactly when ServerCA is not empty
and ClientCert is, client_key exactly when only ClientKey is empty. -/
theorem validate_reports_first_missing (sc : SSLConfig)
    (hm : sc.Mode = SSLModeVerifyCA ∨ sc.Mode = SSLModeVerifyFull) :
    (SSLConfig.Validate (some sc) = some "'ssl.server_ca' is required parameter"
        ↔ sc.ServerCA = "") ∧
    (SSLConfig.Validate (some sc) = some "'ssl.client_cert' is required parameter"
        ↔ (sc.ServerCA ≠ "" ∧ sc.ClientCert = "")) ∧
    (SSLConfig.Validate (some sc) = some "'ssl.client_key' is required parameter"
        ↔ (sc.ServerCA ≠ "" ∧ sc.ClientCert ≠ "" ∧ sc.ClientKey = "")) := by
  have hu : sc.Mode ≠ Unknown := by
    rcases hm with h | h <;> rw [h] <;> decide
  by_cases h1 : sc.ServerCA = "" <;> by_cases h2 : sc.ClientCert = "" <;>
    by_cases h3 : sc.ClientKey = "" <;>
    simp [SSLConfig.Validate, hu, hm, h1, h2, h3]

/-- Witness for C3: a verify-ca config with ServerCA set and both client fields
empty is told about client_cert. -/
theorem validate_reports_first_missing_witness :
    SSLConfig.Validate (some ⟨"verify-ca", "ca-cert", "", ""⟩)
      = some "'ssl.client_cert' is required parameter" :=
  (validate_reports_first_missing ⟨"verify-ca", "ca-cert", "", ""⟩
    (Or.inl rfl)).2.1.mpr ⟨by decide, rfl⟩

end utils

/-! ## Lemmas: the shape of the DSN -/

theorem string_length_pos_iff (s : String) : s.length > 0 ↔ s ≠ "" := by
  rw [gt_iff_lt, String.length, List.length_pos, ne_eq, ne_eq, String.ext_iff]

namespace mysql

theorem foldl_writeDSNParam (g : String → String) (keys : List String) :
    ∀ st : String × Bool, st.2 = true →
      (keys.foldl (fun st k => writeDSNParam st k (g k)) st).1.data
        = st.1.data ++ keys.flatMap (fun k => '&' :: (k.data ++ '=' :: (g k).data)) := by
  induction keys with
  | nil => intro st _; simp
  | cons k ks ih =>
    intro st h
    rw [List.foldl_cons, ih _ rfl]
    simp [writeDSNParam, h, String.data_append]

theorem formatDSN_data (cfg : Config) (h1 : cfg.AllowNativePasswords = true)
    (h2 : cfg.CheckConnLiveness = false) (h3 : cfg.MaxAllowedPacket = 0) :
    cfg.FormatDSN.data = cfg.writeAddress.data ++ "?checkConnLiveness=false".data ++
      (if cfg.TLSConfig = "" then [] else "&tls=".data ++ (url.QueryEscape cfg.TLSConfig).data)
      ++ "&maxAllowedPacket=0".data ++ paramClauses cfg.Params := by
  have h4 : (0 : Int) ≠ defaultMaxAllowedPacket := by decide
  unfold Config.FormatDSN paramClauses
  simp only [h1, h2, h3, not_true_eq_false, if_false, Bool.false_eq_true, not_false_eq_true,
    if_true, h4, ne_eq, string_length_pos_iff]
  by_cases ht : cfg.TLSConfig = ""
  · simp only [ht, not_true_eq_false, if_false, if_true]
    rw [foldl_writeDSNParam _ _ _ rfl]
    simp [writeDSNParam, String.data_append]
    rfl
  · simp only [ht, not_false_eq_true, if_true, if_false]
    rw [foldl_writeDSNParam _ _ _ rfl]
    simp [writeDSNParam, String.data_append]
    rfl

end mysql

namespace driver

theorem applyTLS_frame (p : Stdlib) (c : Config) (cfg : mysql.Config) (reg : mysql.Registry) :
    (Config.URI.applyTLS p c cfg reg).1
      = { cfg with TLSConfig := (Config.URI.applyTLS p c cfg reg).1.TLSConfig } := by
  unfold Config.URI.applyTLS
  cases c.SSLConfig with
  | none => simp only []; split_ifs <;> rfl
  | some sc => simp only []; split_ifs <;> rfl

theorem defaultPort_fields (c : Config) :
    (Config.URI.defaultPort c).Host = c.Host ∧
    (Config.URI.defaultPort c).Username = c.Username ∧
    (Config.URI.defaultPort c).Password = c.Password ∧
    (Config.URI.defaultPort c).Database = c.Database ∧
    (Config.URI.defaultPort c).TLSSkipVerify = c.TLSSkipVerify ∧
    (Config.URI.defaultPort c).JDBCURLParams = c.JDBCURLParams ∧
    (Config.URI.defaultPort c).SSLConfig = c.SSLConfig := by
  unfold Config.URI.defaultPort
  split_ifs <;> simp

theorem build_fields (p : Stdlib) (c : Config) (reg : mysql.Registry) :
    (Config.URI.build p c reg).1.AllowNativePasswords = true ∧
    (Config.URI.build p c reg).1.CheckConnLiveness = false ∧
    (Config.URI.build p c reg).1.MaxAllowedPacket = 0 ∧
    (Config.URI.build p c reg).1.Params = c.JDBCURLParams ∧
    (Config.URI.build p c reg).1.User = c.Username ∧
    (Config.URI.build p c reg).1.Passwd = c.Password ∧
    (Config.URI.build p c reg).1.DBName = c.Database := by
  obtain ⟨-, hu, hpw, hd, -, hj, -⟩ := defaultPort_fields c
  unfold Config.URI.build
  simp only [hj]
  rw [applyTLS_frame]
  unfold Config.URI.newCfg
  simp only [hu, hpw, hd]
  split_ifs with hl
  · simp
  · simp at hl
    simp [hl]

theorem uri_data (p : Stdlib) (c : Config) (reg : mysql.Registry) :
    (Config.URI p c reg).1.data
      = (Config.URI.build p c reg).1.writeAddress.data ++ "?checkConnLiveness=false".data ++
        (if (Config.URI.build p c reg).1.TLSConfig = "" then []
          else "&tls=".data ++ (url.QueryEscape (Config.URI.build p c reg).1.TLSConfig).data)
        ++ "&maxAllowedPacket=0".data ++ paramClauses c.JDBCURLParams := by
  obtain ⟨h1, h2, h3, h4, -⟩ := build_fields p c reg
  unfold Config.URI
  simp only []
  rw [mysql.formatDSN_data _ h1 h2 h3, h4]

end driver

namespace driver

theorem build_applyTLS (p : Stdlib) (c : Config) (reg : mysql.Registry) :
    (Config.URI.build p c reg).1.TLSConfig
        = (Config.URI.applyTLS p (Config.URI.defaultPort c)
            (Config.URI.newCfg (Config.URI.defaultPort c)
              (Config.URI.hostStr (Config.URI.defaultPort c))) reg).1.TLSConfig ∧
      (Config.URI.build p c reg).2.2
        = (Config.URI.applyTLS p (Config.URI.defaultPort c)
            (Config.URI.newCfg (Config.URI.defaultPort c)
              (Config.URI.hostStr (Config.URI.defaultPort c))) reg).2 := by
  constructor
  · unfold Config.URI.build
    simp only []
    split_ifs <;> rfl
  · unfold Config.URI.build
    rfl

theorem contains_tls_clause (p : Stdlib) (c : Config) (reg : mysql.Registry)
    (h : (Config.URI.build p c reg).1.TLSConfig ≠ "") :
    Contains (Config.URI p c reg).1
      ("tls=" ++ url.QueryEscape (Config.URI.build p c reg).1.TLSConfig) := by
  unfold Contains
  rw [uri_data, if_neg h]
  refine ⟨(Config.URI.build p c reg).1.writeAddress.data ++ "?checkConnLiveness=false&".data,
    "&maxAllowedPacket=0".data ++ paramClauses c.JDBCURLParams, ?_⟩
  simp [String.data_append]

end driver

/-! ## Lemmas: where a substring of the DSN can lie -/

theorem infix_split {α : Type} (x : α) (m a b : List α) (hx : x ∉ m)
    (h : m <:+: a ++ x :: b) : m <:+: a ∨ m <:+: b := by
  obtain ⟨s, t, h⟩ := h
  rcases List.append_eq_append_iff.mp h with ⟨a', ha, _⟩ | ⟨c', hc, hxb⟩
  · exact Or.inl ⟨s, a', ha.symm⟩
  · cases c' with
    | nil =>
      left
      refine ⟨s, [], ?_⟩
      simpa using hc
    | cons y c'' =>
      simp only [List.cons_append, List.cons.injEq] at hxb
      obtain ⟨rfl, hb⟩ := hxb
      rcases List.append_eq_append_iff.mp hc.symm with ⟨a', hs, hm⟩ | ⟨c3, ha, hm⟩
      · cases a' with
        | nil =>
          simp only [List.nil_append] at hm
          exact absurd (hm ▸ List.mem_cons_self _ _) hx
        | cons z a'' =>
          simp only [List.cons_append, List.cons.injEq] at hm
          obtain ⟨rfl, hm⟩ := hm
          right
          refine ⟨a'', t, ?_⟩
          rw [hb, hm]
      · exfalso
        apply hx
        rw [hm]
        simp
  
theorem infix_flatMap_amp (m : List Char) (hm : '&' ∉ m) (f : String → List Char)
    (keys : List String) :
    ∀ pre : List Char, m <:+: pre ++ keys.flatMap (fun k => '&' :: f k) →
      m <:+: pre ∨ ∃ k ∈ keys, m <:+: f k := by
  induction keys with
  | nil => intro pre h; left; simpa using h
  | cons k ks ih =>
    intro pre h
    rw [List.flatMap_cons, List.cons_append] at h
    rcases infix_split '&' m pre _ hm h with h | h
    · exact Or.inl h
    · rcases ih (f k) h with h | ⟨k', hk', h⟩
      · exact Or.inr ⟨k, List.mem_cons_self _ _, h⟩
      · exact Or.inr ⟨k', List.mem_cons_of_mem _ hk', h⟩

theorem infix_dsn_cases (m W A T M : List Char) (f : String → List Char)
    (keys : List String) (hamp : '&' ∉ m) (hq : '?' ∉ m) (b : Bool)
    (h : m <:+: W ++ ('?' :: A) ++ (if b then [] else '&' :: T) ++ ('&' :: M)
      ++ keys.flatMap (fun k => '&' :: f k)) :
    m <:+: W ∨ m <:+: A ∨ (b = false ∧ m <:+: T) ∨ m <:+: M ∨ ∃ k ∈ keys, m <:+: f k := by
  simp only [List.append_assoc, List.cons_append] at h
  rcases infix_split '?' _ _ _ hq h with h | h
  · exact Or.inl h
  · right
    cases b with
    | true =>
      rw [if_pos rfl, List.nil_append] at h
      rcases infix_split '&' _ _ _ hamp h with h | h
      · exact Or.inl h
      · right; right
        exact infix_flatMap_amp _ hamp _ _ _ h
    | false =>
      rw [if_neg (by simp)] at h
      simp only [List.append_assoc, List.cons_append] at h
      rcases infix_split '&' _ _ _ hamp h with h | h
      · exact Or.inl h
      · right
        rcases infix_split '&' _ _ _ hamp h with h | h
        · exact Or.inl ⟨rfl, h⟩
        · right
          exact infix_flatMap_amp _ hamp _ _ _ h

namespace driver

theorem uri_contains_cases (p : Stdlib) (c : Config) (reg : mysql.Registry) (m : String)
    (hamp : '&' ∉ m.data) (hq : '?' ∉ m.data) (h : Contains (Config.URI p c reg).1 m) :
    Contains (Config.URI.build p c reg).1.writeAddress m ∨
    m.data <:+: "checkConnLiveness=false".data ∨
    ((Config.URI.build p c reg).1.TLSConfig ≠ "" ∧
      m.data <:+: "tls=".data ++ (url.QueryEscape (Config.URI.build p c reg).1.TLSConfig).data) ∨
    m.data <:+: "maxAllowedPacket=0".data ∨
    ∃ k ∈ mysql.sortedKeys c.JDBCURLParams,
      m.data <:+: k.data ++ '=' :: (url.QueryEscape (mysql.mapIndex c.JDBCURLParams k)).data := by
  unfold Contains at h
  rw [uri_data] at h
  have h' := infix_dsn_cases m.data (Config.URI.build p c reg).1.writeAddress.data
    "checkConnLiveness=false".data
    ("tls=".data ++ (url.QueryEscape (Config.URI.build p c reg).1.TLSConfig).data)
    "maxAllowedPacket=0".data
    (fun k => k.data ++ '=' :: (url.QueryEscape (mysql.mapIndex c.JDBCURLParams k)).data)
    (mysql.sortedKeys c.JDBCURLParams) hamp hq
    (decide ((Config.URI.build p c reg).1.TLSConfig = ""))
    (by
      by_cases ht : (Config.URI.build p c reg).1.TLSConfig = ""
      · rw [if_pos ht] at h
        rw [if_pos (by simpa using ht)]
        exact h
      · rw [if_neg ht] at h
        rw [if_neg (by simpa using ht)]
        exact h)
  rcases h' with h' | h' | ⟨hb, h'⟩ | h' | h'
  · exact Or.inl h'
  · exact Or.inr (Or.inl h')
  · exact Or.inr (Or.inr (Or.inl ⟨by simpa using hb, h'⟩))
  · exact Or.inr (Or.inr (Or.inr (Or.inl h')))
  · exact Or.inr (Or.inr (Or.inr (Or.inr h')))

end driver

/-! ## Theorems: the security clause of `Config.URI` -/

namespace driver

theorem applyTLS_disable (p : Stdlib) (c : Config) (cfg : mysql.Config) (reg : mysql.Registry)
    (sc : utils.SSLConfig) (hs : c.SSLConfig = some sc) (hm : sc.Mode = utils.SSLModeDisable) :
    Config.URI.applyTLS p c cfg reg = ({ cfg with TLSConfig := "false" }, reg) := by
  unfold Config.URI.applyTLS
  rw [hs]
  simp only [hm, if_true]

theorem applyTLS_require (p : Stdlib) (c : Config) (cfg : mysql.Config) (reg : mysql.Registry)
    (sc : utils.SSLConfig) (hs : c.SSLConfig = some sc) (hm : sc.Mode = utils.SSLModeRequire) :
    Config.URI.applyTLS p c cfg reg = ({ cfg with TLSConfig := "true" }, reg) := by
  have hne : utils.SSLModeRequire ≠ utils.SSLModeDisable := by decide
  unfold Config.URI.applyTLS
  rw [hs]
  simp only [hm, hne, if_true, if_false]

theorem applyTLS_nil (p : Stdlib) (c : Config) (cfg : mysql.Config) (reg : mysql.Registry)
    (hs : c.SSLConfig = none) :
    Config.URI.applyTLS p c cfg reg
      = if c.TLSSkipVerify then ({ cfg with TLSConfig := "skip-verify" }, reg) else (cfg, reg) := by
  unfold Config.URI.applyTLS
  rw [hs]


theorem build_tls_of_applyTLS (p : Stdlib) (c : Config) (reg : mysql.Registry) (t : String)
    (h : ∀ cfg, Config.URI.applyTLS p (Config.URI.defaultPort c) cfg reg
      = ({ cfg with TLSConfig := t }, reg)) :
    (Config.URI.build p c reg).1.TLSConfig = t ∧ (Config.URI p c reg).2.2 = reg := by
  obtain ⟨h1, h2⟩ := build_applyTLS p c reg
  rw [h] at h1 h2
  exact ⟨h1, h2⟩

/-- C4 (counterexample): a config with Mode disable whose extra parameters hold
the key `tls` gets a DSN that contains `tls=custom-tls-`. -/
theorem uri_disable_marker_counterexample :
    (∃ sc, disableWithTLSParam.SSLConfig = some sc ∧ sc.Mode = utils.SSLModeDisable) ∧
    Contains (Config.URI sampleStdlib disableWithTLSParam emptyRegistry).1 "tls=false" ∧
    Contains (Config.URI sampleStdlib disableWithTLSParam emptyRegistry).1 "tls=custom-tls-" := by
  refine ⟨⟨_, rfl, rfl⟩, ?_, ?_⟩ <;> decide

/-- C4 (amended): with Mode disable the DSN contains `tls=false`, the TLS clause
that `URI` sets in the driver config is `false`, the registry is left as it
was, and `tls=custom-tls-` occurs in the DSN only inside what the config
supplies: the `user:password@tcp(host:port)/dbname` part or an extra parameter
`key=value`. -/
theorem uri_disable_clause (p : Stdlib) (c : Config) (reg : mysql.Registry)
    (sc : utils.SSLConfig) (hs : c.SSLConfig = some sc) (hm : sc.Mode = utils.SSLModeDisable) :
    Contains (Config.URI p c reg).1 "tls=false" ∧
    (Config.URI.build p c reg).1.TLSConfig = "false" ∧
    (Config.URI p c reg).2.2 = reg ∧
    (Contains (Config.URI p c reg).1 "tls=custom-tls-" →
      Contains (Config.URI.build p c reg).1.writeAddress "tls=custom-tls-" ∨
      ∃ k ∈ mysql.sortedKeys c.JDBCURLParams,
        Contains (k ++ "=" ++ url.QueryEscape (mysql.mapIndex c.JDBCURLParams k))
          "tls=custom-tls-") := by
  have hs' : (Config.URI.defaultPort c).SSLConfig = some sc := by
    rw [(defaultPort_fields c).2.2.2.2.2.2, hs]
  obtain ⟨ht, hr⟩ := build_tls_of_applyTLS p c reg "false"
    (fun cfg => applyTLS_disable p _ cfg reg sc hs' hm)
  refine ⟨?_, ht, hr, ?_⟩
  · have h := contains_tls_clause p c reg (by rw [ht]; decide)
    rw [ht] at h
    exact h
  · intro h
    rcases uri_contains_cases p c reg "tls=custom-tls-" (by decide) (by decide) h
      with h | h | ⟨-, h⟩ | h | ⟨k, hk, h⟩
    · exact Or.inl h
    · exact absurd h (by decide)
    · rw [ht] at h
      exact absurd h (by decide)
    · exact absurd h (by decide)
    · refine Or.inr ⟨k, hk, ?_⟩
      unfold Contains
      simpa [String.data_append] using h

/-- Witness for C4 (amended): the test config with Mode disable. -/
theorem uri_disable_clause_witness :
    Contains (Config.URI sampleStdlib (testConfig (some ⟨"disable", "", "", ""⟩))
      emptyRegistry).1 "tls=false" :=
  (uri_disable_clause sampleStdlib (testConfig (some ⟨"disable", "", "", ""⟩)) emptyRegistry
    ⟨"disable", "", "", ""⟩ rfl rfl).1

/-- C5: with Mode require the DSN contains `tls=true`, whatever TLSSkipVerify
and the certificate fields hold. -/
theorem uri_require_clause (p : Stdlib) (c : Config) (reg : mysql.Registry)
    (sc : utils.SSLConfig) (hs : c.SSLConfig = some sc) (hm : sc.Mode = utils.SSLModeRequire) :
    Contains (Config.URI p c reg).1 "tls=true" := by
  have hs' : (Config.URI.defaultPort c).SSLConfig = some sc := by
    rw [(defaultPort_fields c).2.2.2.2.2.2, hs]
  obtain ⟨ht, -⟩ := build_tls_of_applyTLS p c reg "true"
    (fun cfg => applyTLS_require p _ cfg reg sc hs' hm)
  have h := contains_tls_clause p c reg (by rw [ht]; decide)
  rw [ht] at h
  exact h

/-- Witness for C5: the test config with Mode require. -/
theorem uri_require_clause_witness :
    Contains (Config.URI sampleStdlib (testConfig (some ⟨"require", "", "", ""⟩))
      emptyRegistry).1 "tls=true" :=
  uri_require_clause sampleStdlib (testConfig (some ⟨"require", "", "", ""⟩)) emptyRegistry
    ⟨"require", "", "", ""⟩ rfl rfl

/-- C6: with SSLConfig nil, TLSSkipVerify true puts `tls=skip-verify` into the
DSN; TLSSkipVerify false leaves the TLS clause of the driver config empty, so
the DSN is the address, `checkConnLiveness=false`, `maxAllowedPacket=0` and the
extra parameters, and `tls=` occurs in it only inside what the config supplies. -/
theorem uri_legacy_flag (p : Stdlib) (c : Config) (reg : mysql.Registry)
    (hs : c.SSLConfig = none) :
    (c.TLSSkipVerify = true → Contains (Config.URI p c reg).1 "tls=skip-verify") ∧
    (c.TLSSkipVerify = false →
      (Config.URI.build p c reg).1.TLSConfig = "" ∧
      (Config.URI p c reg).1.data
        = (Config.URI.build p c reg).1.writeAddress.data ++
          "?checkConnLiveness=false&maxAllowedPacket=0".data ++ paramClauses c.JDBCURLParams ∧
      (Contains (Config.URI p c reg).1 "tls=" →
        Contains (Config.URI.build p c reg).1.writeAddress "tls=" ∨
        ∃ k ∈ mysql.sortedKeys c.JDBCURLParams,
          Contains (k ++ "=" ++ url.QueryEscape (mysql.mapIndex c.JDBCURLParams k)) "tls=")) := by
  have hs' : (Config.URI.defaultPort c).SSLConfig = none := by
    rw [(defaultPort_fields c).2.2.2.2.2.2, hs]
  have hv' : (Config.URI.defaultPort c).TLSSkipVerify = c.TLSSkipVerify :=
    (defaultPort_fields c).2.2.2.2.1
  constructor
  · intro hv
    obtain ⟨ht, -⟩ := build_tls_of_applyTLS p c reg "skip-verify"
      (fun cfg => by rw [applyTLS_nil p _ cfg reg hs', hv', hv]; rfl)
    have h := contains_tls_clause p c reg (by rw [ht]; decide)
    rw [ht] at h
    exact h
  · intro hv
    have ht : (Config.URI.build p c reg).1.TLSConfig = "" := by
      rw [(build_applyTLS p c reg).1, applyTLS_nil p _ _ reg hs', hv', hv]
      rfl
    refine ⟨ht, ?_, ?_⟩
    · rw [uri_data, if_pos ht]
      simp
    · intro h
      rcases uri_contains_cases p c reg "tls=" (by decide) (by decide) h
        with h | h | ⟨hne, -⟩ | h | ⟨k, hk, h⟩
      · exact Or.inl h
      · exact absurd h (by decide)
      · exact absurd ht hne
      · exact absurd h (by decide)
      · refine Or.inr ⟨k, hk, ?_⟩
        unfold Contains
        simpa [String.data_append] using h

/-- Witness for C6: the test config without SSLConfig, with the legacy flag set
and with the legacy flag clear. -/
theorem uri_legacy_flag_witness :
    Contains (Config.URI sampleStdlib { testConfig none with TLSSkipVerify := true }
      emptyRegistry).1 "tls=skip-verify" ∧
    (Config.URI.build sampleStdlib (testConfig none) emptyRegistry).1.TLSConfig = "" :=
  ⟨(uri_legacy_flag sampleStdlib { testConfig none with TLSSkipVerify := true }
      emptyRegistry rfl).1 rfl,
   ((uri_legacy_flag sampleStdlib (testConfig none) emptyRegistry rfl).2 rfl).1⟩

/-- C10: a config with an SSLConfig (any Mode string, any certificate fields,
whether or not the profile can be built) gets the same DSN, and leaves the same
registry, with TLSSkipVerify true as with TLSSkipVerify false. -/
theorem uri_sslconfig_overrides_legacy_flag (p : Stdlib) (c : Config) (reg : mysql.Registry)
    (sc : utils.SSLConfig) :
    (Config.URI p { c with SSLConfig := some sc, TLSSkipVerify := true } reg).1
      = (Config.URI p { c with SSLConfig := some sc, TLSSkipVerify := false } reg).1 ∧
    (Config.URI p { c with SSLConfig := some sc, TLSSkipVerify := true } reg).2.2
      = (Config.URI p { c with SSLConfig := some sc, TLSSkipVerify := false } reg).2.2 := by
  unfold Config.URI Config.URI.build Config.URI.defaultPort
  by_cases h0 : c.Port = 0 <;>
    simp [h0, Config.URI.applyTLS, Config.URI.hostStr, Config.URI.newCfg]

end driver

/-! ## Theorems: `CreateTLSConfiguration` -/

namespace utils

/-- C8: two configs with the same ServerCA, ClientCert and ClientKey, all of
which parse, one with Mode verify-ca and one with Mode verify-full: both
profiles are built, verify-ca has InsecureSkipVerify true, verify-full has it
false, and MinVersion, RootCAs and Certificates are the same in both. -/
theorem createTLS_verify_modes_differ_in_flag (p : Stdlib) (ca cert key : String)
    (pool : x509.CertPool) (pair : tls.Certificate)
    (hca : p.AppendCertsFromPEM ca = some pool) (hpair : p.X509KeyPair cert key = .ok pair) :
    ∃ pCA pFull : tls.Config,
      CreateTLSConfiguration p (some ⟨SSLModeVerifyCA, ca, cert, key⟩) = .ok pCA ∧
      CreateTLSConfiguration p (some ⟨SSLModeVerifyFull, ca, cert, key⟩) = .ok pFull ∧
      pCA.InsecureSkipVerify = true ∧ pFull.InsecureSkipVerify = false ∧
      pCA.MinVersion = pFull.MinVersion ∧ pCA.RootCAs = pFull.RootCAs ∧
      pCA.Certificates = pFull.Certificates := by
  have h1 : SSLModeVerifyCA ≠ SSLModeVerifyFull := by decide
  by_cases he : cert ≠ "" ∧ key ≠ ""
  · exact ⟨⟨tls.VersionTLS12, some pool, [pair], true⟩, ⟨tls.VersionTLS12, some pool, [pair], false⟩,
      by simp [CreateTLSConfiguration, hca, hpair, he, h1],
      by simp [CreateTLSConfiguration, hca, hpair, he], rfl, rfl, rfl, rfl, rfl⟩
  · exact ⟨⟨tls.VersionTLS12, some pool, [], true⟩, ⟨tls.VersionTLS12, some pool, [], false⟩,
      by simp [CreateTLSConfiguration, hca, he, h1],
      by simp [CreateTLSConfiguration, hca, he], rfl, rfl, rfl, rfl, rfl⟩

/-- Witness for C8: the certificate fields of the repository's test config,
which the sample parsers accept. -/
theorem createTLS_verify_modes_differ_in_flag_witness :
    ∃ pCA pFull : tls.Config,
      CreateTLSConfiguration sampleStdlib
        (some ⟨SSLModeVerifyCA, "ca-cert", "client-cert", "client-key"⟩) = .ok pCA ∧
      CreateTLSConfiguration sampleStdlib
        (some ⟨SSLModeVerifyFull, "ca-cert", "client-cert", "client-key"⟩) = .ok pFull ∧
      pCA.InsecureSkipVerify = true ∧ pFull.InsecureSkipVerify = false ∧
      pCA.MinVersion = pFull.MinVersion ∧ pCA.RootCAs = pFull.RootCAs ∧
      pCA.Certificates = pFull.Certificates :=
  createTLS_verify_modes_differ_in_flag sampleStdlib "ca-cert" "client-cert" "client-key"
    ["ca-cert"] ("client-cert", "client-key") rfl rfl

/-- C9: with Mode require, whatever the certificate fields hold and whatever
parses, `CreateTLSConfiguration` returns no error and a profile with minimum
version TLS 1.2, RootCAs unset, no client certificate, InsecureSkipVerify true. -/
theorem createTLS_require (p : Stdlib) (ca cert key : String) :
    CreateTLSConfiguration p (some ⟨SSLModeRequire, ca, cert, key⟩)
      = .ok { MinVersion := tls.VersionTLS12, RootCAs := none, Certificates := [],
              InsecureSkipVerify := true } := by
  have h1 : SSLModeRequire ≠ SSLModeVerifyCA := by decide
  have h2 : SSLModeRequire ≠ SSLModeVerifyFull := by decide
  simp [CreateTLSConfiguration, h1, h2]

end utils

/-! ## Lemmas: strings that escaping leaves as they are -/

namespace url

theorem bytes_escape_of_not_shouldEscape (c : Char) (mode : encoding)
    (h : shouldEscape c.toNat mode = false) :
    ((String.utf8EncodeChar c).map UInt8.toNat).flatMap (fun b => escapeByte b mode) = [c] := by
  have hlt : c.toNat < 128 := by
    by_contra hge
    have hge : 128 ≤ c.toNat := by omega
    have : shouldEscape c.toNat mode = true := by
      unfold shouldEscape
      have e : ∀ ch : Char, ch.toNat < 128 → c.toNat ≠ ch.toNat := fun ch hch => by omega
      have ez : ¬ c.toNat ≤ 'z'.toNat := by have : 'z'.toNat < 128 := by decide
                                            omega
      have eZ : ¬ c.toNat ≤ 'Z'.toNat := by have : 'Z'.toNat < 128 := by decide
                                            omega
      have e9 : ¬ c.toNat ≤ '9'.toNat := by have : '9'.toNat < 128 := by decide
                                            omega
      simp only [ez, eZ, e9, and_false, or_false, if_false,
        e '-' (by decide), e '_' (by decide), e '.' (by decide), e '~' (by decide),
        e '$' (by decide), e '&' (by decide), e '+' (by decide), e ',' (by decide),
        e '/' (by decide), e ':' (by decide), e ';' (by decide), e '=' (by decide),
        e '?' (by decide), e '@' (by decide)]
    rw [this] at h
    exact absurd h (by decide)
  have hv : c.val ≤ 0x7f := by
    rw [UInt32.le_def]
    show c.val.toNat ≤ 127
    have : c.val.toNat = c.toNat := rfl
    omega
  have hb : (c.val.toUInt8).toNat = c.toNat := by
    show (c.val.toNat.toUInt8).toNat = c.toNat
    have : c.val.toNat = c.toNat := rfl
    rw [this]
    simp [Nat.toUInt8, UInt8.toNat, UInt8.ofNat, Fin.ofNat]
    omega
  unfold String.utf8EncodeChar
  simp only [hv, if_true, List.map_cons, List.map_nil, hb, List.flatMap_cons, List.flatMap_nil,
    List.append_nil]
  unfold escapeByte
  rw [h]
  simp

theorem escape_eq_self (s : String) (mode : encoding)
    (h : ∀ c ∈ s.data, shouldEscape c.toNat mode = false) : escape s mode = s := by
  apply String.ext
  unfold escape bytes
  simp only []
  obtain ⟨l⟩ := s
  simp only at h ⊢
  induction l with
  | nil => rfl
  | cons c cs ih =>
    rw [List.flatMap_cons, List.map_append, List.flatMap_append,
      bytes_escape_of_not_shouldEscape c mode (h c (List.mem_cons_self _ _)),
      ih (fun d hd => h d (List.mem_cons_of_mem _ hd))]
    rfl

end url

/-! ## Lemmas: the characters of a formatted number -/

namespace fmt

theorem digitChar_isDigit (k : Nat) (h : k < 10) : (Nat.digitChar k).isDigit = true := by
  interval_cases k <;> decide

theorem toDigitsCore_chars (fuel : Nat) :
    ∀ (n : Nat) (ds : List Char), (∀ c ∈ ds, c.isDigit = true) →
      ∀ c ∈ Nat.toDigitsCore 10 fuel n ds, c.isDigit = true := by
  induction fuel with
  | zero => intro n ds h c hc; exact h c hc
  | succ f ih =>
    intro n ds h c hc
    unfold Nat.toDigitsCore at hc
    have hd : ∀ c ∈ Nat.digitChar (n % 10) :: ds, c.isDigit = true := by
      intro c hc
      rcases List.mem_cons.mp hc with rfl | hc
      · exact digitChar_isDigit _ (Nat.mod_lt _ (by decide))
      · exact h c hc
    simp only [] at hc
    split_ifs at hc
    · exact hd c hc
    · exact ih _ _ hd c hc

theorem repr_chars (n : Nat) : ∀ c ∈ (Nat.repr n).data, c.isDigit = true := by
  intro c hc
  exact toDigitsCore_chars _ _ [] (by simp) c hc

theorem isDigit_not_shouldEscape (c : Char) (mode : url.encoding) (h : c.isDigit = true) :
    url.shouldEscape c.toNat mode = false := by
  have h' : 48 ≤ c.toNat ∧ c.toNat ≤ 57 := by
    unfold Char.isDigit at h
    simp only [ge_iff_le, Bool.and_eq_true, decide_eq_true_eq, UInt32.le_def] at h
    exact h
  have h0 : '0'.toNat = 48 := by decide
  have h9 : '9'.toNat = 57 := by decide
  unfold url.shouldEscape
  rw [if_pos (Or.inr (Or.inr (by rw [h0, h9]; exact h')))]

theorem Sprintf_d_chars (n : Int) (mode : url.encoding) :
    ∀ c ∈ (Sprintf_d n).data, url.shouldEscape c.toNat mode = false := by
  intro c hc
  cases n with
  | ofNat m => exact isDigit_not_shouldEscape c mode (repr_chars m c hc)
  | negSucc m =>
    simp only [Sprintf_d, String.data_append] at hc
    rcases List.mem_append.mp hc with hc | hc
    · have : c = '-' := by simpa using hc
      subst this
      cases mode <;> decide
    · exact isDigit_not_shouldEscape c mode (repr_chars _ c hc)

end fmt

/-! ## Lemmas: the profile name and the registry -/

namespace driver

theorem profileName_length (host tail : String) :
    12 ≤ ("custom-tls-" ++ host ++ "-" ++ tail).data.length := by
  have h1 : "custom-tls-".data.length = 11 := by decide
  have h2 : "-".data.length = 1 := by decide
  rw [String.data_append, String.data_append, String.data_append, List.length_append,
    List.length_append, List.length_append, h1, h2]
  omega

theorem registerTLS_profileName (p : Stdlib) (host tail : String) (config : tls.Config)
    (reg : mysql.Registry) :
    mysql.RegisterTLSConfig p ("custom-tls-" ++ host ++ "-" ++ tail) config reg
      = (none, fun k => if k = "custom-tls-" ++ host ++ "-" ++ tail then some config
                        else reg k) := by
  have hlen := profileName_length host tail
  have hne : ∀ r : String, r.data.length < 12 → "custom-tls-" ++ host ++ "-" ++ tail ≠ r := by
    intro r hr he
    rw [he] at hlen
    omega
  have hlow : ∀ r : String, r.data.length < 12 →
      strings.ToLower p ("custom-tls-" ++ host ++ "-" ++ tail) ≠ r := by
    intro r hr he
    have : (strings.ToLower p ("custom-tls-" ++ host ++ "-" ++ tail)).data.length
        = ("custom-tls-" ++ host ++ "-" ++ tail).data.length := by
      simp [strings.ToLower]
    rw [he] at this
    omega
  have hb : (mysql.readBool ("custom-tls-" ++ host ++ "-" ++ tail)).2 = false := by
    unfold mysql.readBool
    simp [hne "1" (by decide), hne "true" (by decide), hne "TRUE" (by decide),
      hne "True" (by decide), hne "0" (by decide), hne "false" (by decide),
      hne "FALSE" (by decide), hne "False" (by decide)]
  unfold mysql.RegisterTLSConfig
  simp [hb, hlow "skip-verify" (by decide), hlow "preferred" (by decide)]

theorem applyTLS_verify_ok (p : Stdlib) (c : Config) (cfg : mysql.Config) (reg : mysql.Registry)
    (sc : utils.SSLConfig) (prof : tls.Config) (hs : c.SSLConfig = some sc)
    (hm : sc.Mode = utils.SSLModeVerifyCA ∨ sc.Mode = utils.SSLModeVerifyFull)
    (hprof : utils.CreateTLSConfiguration p (some sc) = .ok prof) :
    Config.URI.applyTLS p c cfg reg
      = ({ cfg with TLSConfig := "custom-tls-" ++ c.Host ++ "-" ++ fmt.Sprintf_d c.Port },
         fun k => if k = "custom-tls-" ++ c.Host ++ "-" ++ fmt.Sprintf_d c.Port then some prof
                  else reg k) := by
  have h1 : sc.Mode ≠ utils.SSLModeDisable := by
    rcases hm with h | h <;> rw [h] <;> decide
  have h2 : sc.Mode ≠ utils.SSLModeRequire := by
    rcases hm with h | h <;> rw [h] <;> decide
  unfold Config.URI.applyTLS
  rw [hs]
  simp only [h1, h2, hm, if_true, if_false]
  unfold registerTLSConfig
  rw [hprof]
  simp only [registerTLS_profileName, if_true]

end driver

namespace utils

theorem createTLS_verify (p : Stdlib) (sc : SSLConfig) (pool : x509.CertPool)
    (pair : tls.Certificate)
    (hm : sc.Mode = SSLModeVerifyCA ∨ sc.Mode = SSLModeVerifyFull)
    (hca : p.AppendCertsFromPEM sc.ServerCA = some pool)
    (hpair : p.X509KeyPair sc.ClientCert sc.ClientKey = .ok pair) :
    ∃ prof, CreateTLSConfiguration p (some sc) = .ok prof ∧
      prof.InsecureSkipVerify = decide (sc.Mode ≠ SSLModeVerifyFull) := by
  unfold CreateTLSConfiguration
  simp only [hm, if_true, hca, hpair]
  by_cases he : sc.ClientCert ≠ "" ∧ sc.ClientKey ≠ "" <;>
    by_cases hf : sc.Mode = SSLModeVerifyFull <;> simp [he, hf]

end utils

namespace driver

theorem defaultPort_port (c : Config) :
    (Config.URI.defaultPort c).Port = if c.Port = 0 then 3306 else c.Port := by
  unfold Config.URI.defaultPort
  split_ifs <;> rfl

/-- C7 (counterexample): for the host `[::1]` and parsing verify-ca material the
DSN does not contain `tls=custom-tls-[::1]-3306`. -/
theorem uri_verify_ca_name_counterexample :
    verifyCAOnIPv6.SSLConfig = some ⟨"verify-ca", "ca-cert", "client-cert", "client-key"⟩ ∧
    (sampleStdlib.AppendCertsFromPEM "ca-cert").isSome = true ∧
    sampleStdlib.X509KeyPair "client-cert" "client-key" = .ok ("client-cert", "client-key") ∧
    verifyCAOnIPv6.Host = "[::1]" ∧ verifyCAOnIPv6.Port = 3306 ∧
    ¬ Contains (Config.URI sampleStdlib verifyCAOnIPv6 emptyRegistry).1
      "tls=custom-tls-[::1]-3306" := by
  refine ⟨rfl, rfl, rfl, rfl, rfl, ?_⟩
  decide

/-- C7 (amended): with Mode verify-ca and PEM material that parses, the DSN
contains `tls=` followed by the query-escaped profile name
`custom-tls-<Host>-<Port>` (Port after the 0-to-3306 default), the registry
after the call maps the profile name itself to a profile whose
InsecureSkipVerify is true, and when Host has only letters, digits and `-_.~`
the escaped name is the name: the DSN contains `tls=custom-tls-<Host>-<Port>`. -/
theorem uri_verify_ca_profile (p : Stdlib) (c : Config) (reg : mysql.Registry)
    (sc : utils.SSLConfig) (pool : x509.CertPool) (pair : tls.Certificate)
    (hs : c.SSLConfig = some sc) (hm : sc.Mode = utils.SSLModeVerifyCA)
    (hca : p.AppendCertsFromPEM sc.ServerCA = some pool)
    (hpair : p.X509KeyPair sc.ClientCert sc.ClientKey = .ok pair) :
    Contains (Config.URI p c reg).1
      ("tls=" ++ url.QueryEscape
        ("custom-tls-" ++ c.Host ++ "-" ++ fmt.Sprintf_d (if c.Port = 0 then 3306 else c.Port))) ∧
    (∃ prof, (Config.URI p c reg).2.2
        ("custom-tls-" ++ c.Host ++ "-" ++ fmt.Sprintf_d (if c.Port = 0 then 3306 else c.Port))
          = some prof ∧ prof.InsecureSkipVerify = true) ∧
    ((∀ ch ∈ c.Host.data, url.shouldEscape ch.toNat .encodeQueryComponent = false) →
      Contains (Config.URI p c reg).1
        ("tls=" ++
          ("custom-tls-" ++ c.Host ++ "-" ++ fmt.Sprintf_d (if c.Port = 0 then 3306 else c.Port)))) := by
  have hs' : (Config.URI.defaultPort c).SSLConfig = some sc := by
    rw [(defaultPort_fields c).2.2.2.2.2.2, hs]
  obtain ⟨prof, hprof, hskip⟩ := utils.createTLS_verify p sc pool pair (Or.inl hm) hca hpair
  have hskip' : prof.InsecureSkipVerify = true := by
    rw [hskip, hm]; decide
  obtain ⟨h1, h2⟩ := build_applyTLS p c reg
  rw [applyTLS_verify_ok p _ _ reg sc prof hs' (Or.inl hm) hprof] at h1 h2
  simp only [(defaultPort_fields c).1, defaultPort_port] at h1 h2
  have hne : (Config.URI.build p c reg).1.TLSConfig ≠ "" := by
    rw [h1]
    intro he
    have := profileName_length c.Host (fmt.Sprintf_d (if c.Port = 0 then 3306 else c.Port))
    rw [he] at this
    exact absurd this (by decide)
  have hc := contains_tls_clause p c reg hne
  rw [h1] at hc
  refine ⟨hc, ⟨prof, ?_, hskip'⟩, ?_⟩
  · show (Config.URI.build p c reg).2.2 _ = some prof
    rw [h2]
    simp
  · intro hhost
    have hesc : url.QueryEscape
        ("custom-tls-" ++ c.Host ++ "-" ++ fmt.Sprintf_d (if c.Port = 0 then 3306 else c.Port))
        = "custom-tls-" ++ c.Host ++ "-" ++ fmt.Sprintf_d (if c.Port = 0 then 3306 else c.Port) := by
      apply url.escape_eq_self
      intro ch hch
      simp only [String.data_append, List.mem_append] at hch
      rcases hch with ((hch | hch) | hch) | hch
      · revert ch
        decide
      · exact hhost ch hch
      · have : ch = '-' := by simpa using hch
        subst this
        decide
      · exact fmt.Sprintf_d_chars _ _ ch hch
    rw [hesc] at hc
    exact hc

/-- Witness for C7 (amended): the test config with Mode verify-ca and the
certificate fields of `TestConfigValidation`. -/
theorem uri_verify_ca_profile_witness :
    Contains (Config.URI sampleStdlib
        (testConfig (some ⟨"verify-ca", "ca-cert", "client-cert", "client-key"⟩))
        emptyRegistry).1 "tls=custom-tls-localhost-3306" ∧
    ∃ prof, (Config.URI sampleStdlib
        (testConfig (some ⟨"verify-ca", "ca-cert", "client-cert", "client-key"⟩))
        emptyRegistry).2.2 "custom-tls-localhost-3306" = some prof ∧
      prof.InsecureSkipVerify = true :=
  have h := uri_verify_ca_profile sampleStdlib
    (testConfig (some ⟨"verify-ca", "ca-cert", "client-cert", "client-key"⟩)) emptyRegistry
    ⟨"verify-ca", "ca-cert", "client-cert", "client-key"⟩ ["ca-cert"]
    ("client-cert", "client-key") rfl rfl rfl rfl
  ⟨h.2.2 (by decide), h.2.1⟩

end driver

/-! ## Lemmas: the extra parameters in the DSN -/

theorem infix_flatMap_of_mem {α β : Type} (f : α → List β) (l : List α) (a : α) (h : a ∈ l) :
    f a <:+: l.flatMap f := by
  induction l with
  | nil => cases h
  | cons b bs ih =>
    rw [List.flatMap_cons]
    rcases List.mem_cons.mp h with rfl | h
    · exact List.infix_append' [] (f a) (bs.flatMap f) |> fun h => by simpa using h
    · exact (ih h).trans (List.infix_append' (f b) (bs.flatMap f) [] |> fun h => by simpa using h)

namespace mysql

theorem mem_sortedKeys (m : List (String × String)) (k : String) :
    k ∈ sortedKeys m ↔ k ∈ m.map Prod.fst := by
  unfold sortedKeys
  rw [List.mem_insertionSort, List.mem_dedup]

theorem mem_keys_of_lookup (m : List (String × String)) (k v : String)
    (h : m.lookup k = some v) : k ∈ m.map Prod.fst := by
  induction m with
  | nil => simp at h
  | cons e es ih =>
    obtain ⟨k', v'⟩ := e
    by_cases hk : k = k'
    · simp [hk]
    · have : (k == k') = false := by simpa using hk
      rw [List.lookup_cons, this] at h
      simp only [List.map_cons, List.mem_cons]
      exact Or.inr (ih h)

end mysql

namespace driver

theorem contains_param_clause (p : Stdlib) (c : Config) (reg : mysql.Registry) (k : String)
    (hk : k ∈ mysql.sortedKeys c.JDBCURLParams) :
    Contains (Config.URI p c reg).1
      (k ++ "=" ++ url.QueryEscape (mysql.mapIndex c.JDBCURLParams k)) := by
  unfold Contains
  rw [uri_data]
  have h1 := infix_flatMap_of_mem
    (fun k => '&' :: (k.data ++ '=' :: (url.QueryEscape (mysql.mapIndex c.JDBCURLParams k)).data))
    (mysql.sortedKeys c.JDBCURLParams) k hk
  have h2 : (k ++ "=" ++ url.QueryEscape (mysql.mapIndex c.JDBCURLParams k)).data
      <:+: '&' :: (k.data ++ '=' :: (url.QueryEscape (mysql.mapIndex c.JDBCURLParams k)).data) := by
    refine ⟨['&'], [], ?_⟩
    simp [String.data_append]
  have h3 : paramClauses c.JDBCURLParams <:+:
      (Config.URI.build p c reg).1.writeAddress.data ++ "?checkConnLiveness=false".data ++
        (if (Config.URI.build p c reg).1.TLSConfig = "" then []
          else "&tls=".data ++ (url.QueryEscape (Config.URI.build p c reg).1.TLSConfig).data)
        ++ "&maxAllowedPacket=0".data ++ paramClauses c.JDBCURLParams :=
    ⟨_, [], by rw [List.append_nil]⟩
  exact (h2.trans h1).trans h3

end driver

/-! ## Theorems: extra parameters, defaults and repeated calls of `Config.URI` -/

namespace driver

/-- C11 (counterexample): the extra parameter `loc` with the value
`Asia/Kolkata` is an entry of the map, and the DSN does not contain
`loc=Asia/Kolkata`. -/
theorem uri_param_value_counterexample :
    locParamConfig.JDBCURLParams.lookup "loc" = some "Asia/Kolkata" ∧
    ¬ Contains (Config.URI sampleStdlib locParamConfig emptyRegistry).1 "loc=Asia/Kolkata" ∧
    Contains (Config.URI sampleStdlib locParamConfig emptyRegistry).1 "loc=Asia%2FKolkata" := by
  refine ⟨by decide, ?_, ?_⟩ <;> decide

/-- C11 (amended): for every entry (k, v) of JDBCURLParams the DSN contains `k=`
followed by the query-escaped v, the key as supplied; when v has only letters,
digits and `-_.~` that is `k=v` as supplied. -/
theorem uri_extra_param (p : Stdlib) (c : Config) (reg : mysql.Registry) (k v : String)
    (h : c.JDBCURLParams.lookup k = some v) :
    Contains (Config.URI p c reg).1 (k ++ "=" ++ url.QueryEscape v) ∧
    ((∀ ch ∈ v.data, url.shouldEscape ch.toNat .encodeQueryComponent = false) →
      Contains (Config.URI p c reg).1 (k ++ "=" ++ v)) := by
  have hk : k ∈ mysql.sortedKeys c.JDBCURLParams :=
    (mysql.mem_sortedKeys _ _).mpr (mysql.mem_keys_of_lookup _ _ _ h)
  have hc := contains_param_clause p c reg k hk
  have hv : mysql.mapIndex c.JDBCURLParams k = v := by
    unfold mysql.mapIndex
    rw [h]
    rfl
  rw [hv] at hc
  refine ⟨hc, fun hu => ?_⟩
  have he : url.QueryEscape v = v := url.escape_eq_self v _ hu
  rw [he] at hc
  exact hc

/-- Witness for C11 (amended): the two extra parameters of `TestURIWithJDBCParams`. -/
theorem uri_extra_param_witness :
    Contains (Config.URI sampleStdlib
        { testConfig none with
          JDBCURLParams := [("connectTimeout", "30000"), ("useSSL", "true")] }
        emptyRegistry).1 "useSSL=true" :=
  (uri_extra_param sampleStdlib
    { testConfig none with JDBCURLParams := [("connectTimeout", "30000"), ("useSSL", "true")] }
    emptyRegistry "useSSL" "true" (by decide)).2 (by decide)

end driver

/-! ## Lemmas: a Go map does not depend on the order of its entries -/

namespace mysql

theorem sortedKeys_perm (m m' : List (String × String)) (h : List.Perm m' m) :
    sortedKeys m' = sortedKeys m := by
  unfold sortedKeys
  have hp : List.Perm (m'.map Prod.fst).dedup (m.map Prod.fst).dedup := (h.map _).dedup
  have tot : IsTotal String (fun a b : String => a.data ≤ b.data) := ⟨fun a b => le_total _ _⟩
  have tr : IsTrans String (fun a b : String => a.data ≤ b.data) :=
    ⟨fun a b c hab hbc => le_trans hab hbc⟩
  have anti : IsAntisymm String (fun a b : String => a.data ≤ b.data) :=
    ⟨fun a b hab hba => String.ext (le_antisymm hab hba)⟩
  exact List.eq_of_perm_of_sorted
    (((List.perm_insertionSort _ _).trans hp).trans (List.perm_insertionSort _ _).symm)
    (List.sorted_insertionSort _ _) (List.sorted_insertionSort _ _)

theorem lookup_eq_some_iff_mem (m : List (String × String)) (hn : (m.map Prod.fst).Nodup)
    (k v : String) : m.lookup k = some v ↔ (k, v) ∈ m := by
  induction m with
  | nil => simp
  | cons e es ih =>
    obtain ⟨k', v'⟩ := e
    simp only [List.map_cons, List.nodup_cons] at hn
    by_cases hk : k = k'
    · subst hk
      simp only [List.lookup_cons, beq_self_eq_true, Option.some.injEq, List.mem_cons,
        Prod.mk.injEq, true_and]
      constructor
      · intro h; exact Or.inl h.symm
      · rintro (h | h)
        · exact h.symm
        · exact absurd (List.mem_map_of_mem Prod.fst h) hn.1
    · have hb : (k == k') = false := by simpa using hk
      rw [List.lookup_cons, hb]
      simp only [List.mem_cons, Prod.mk.injEq, hk, false_and, false_or]
      exact ih hn.2

theorem mapIndex_perm (m m' : List (String × String)) (h : List.Perm m' m)
    (hn : (m.map Prod.fst).Nodup) (k : String) : mapIndex m' k = mapIndex m k := by
  have hn' : (m'.map Prod.fst).Nodup := (h.map Prod.fst).nodup_iff.mpr hn
  unfold mapIndex
  congr 1
  cases h1 : m.lookup k with
  | some v =>
    exact (lookup_eq_some_iff_mem m' hn' k v).mpr
      (h.mem_iff.mpr ((lookup_eq_some_iff_mem m hn k v).mp h1))
  | none =>
    cases h2 : m'.lookup k with
    | none => rfl
    | some v =>
      have := (lookup_eq_some_iff_mem m hn k v).mpr
        (h.mem_iff.mp ((lookup_eq_some_iff_mem m' hn' k v).mp h2))
      rw [h1] at this
      cases this

end mysql

theorem paramClauses_perm (m m' : List (String × String)) (h : List.Perm m' m)
    (hn : (m.map Prod.fst).Nodup) : paramClauses m' = paramClauses m := by
  unfold paramClauses
  rw [mysql.sortedKeys_perm m m' h]
  congr 1
  funext k
  rw [mysql.mapIndex_perm m m' h hn k]

/-! ## Lemmas: what the blocks of `URI` read -/

namespace driver

theorem applyTLS_congr (p : Stdlib) (c1 c2 : Config) (cfg : mysql.Config) (reg : mysql.Registry)
    (hs : c1.SSLConfig = c2.SSLConfig) (hh : c1.Host = c2.Host) (hp : c1.Port = c2.Port)
    (hv : c1.TLSSkipVerify = c2.TLSSkipVerify) :
    Config.URI.applyTLS p c1 cfg reg = Config.URI.applyTLS p c2 cfg reg := by
  unfold Config.URI.applyTLS
  rw [hs, hh, hp, hv]

theorem registerTLSConfig_error_reg (p : Stdlib) (name : String)
    (ssl : Option utils.SSLConfig) (reg reg' : mysql.Registry) :
    (registerTLSConfig p name ssl reg).1 = (registerTLSConfig p name ssl reg').1 := by
  unfold registerTLSConfig
  cases utils.CreateTLSConfiguration p ssl with
  | error e => rfl
  | ok t =>
    simp only [mysql.RegisterTLSConfig]
    split_ifs <;> rfl

theorem applyTLS_fst_reg (p : Stdlib) (c : Config) (cfg : mysql.Config)
    (reg reg' : mysql.Registry) :
    (Config.URI.applyTLS p c cfg reg).1 = (Config.URI.applyTLS p c cfg reg').1 := by
  unfold Config.URI.applyTLS
  cases c.SSLConfig with
  | none => simp only []; split_ifs <;> rfl
  | some sc =>
    simp only []
    have hr := registerTLSConfig_error_reg p
      ("custom-tls-" ++ c.Host ++ "-" ++ fmt.Sprintf_d c.Port) (some sc) reg reg'
    by_cases h1 : sc.Mode = utils.SSLModeDisable
    · rw [if_pos h1, if_pos h1]
    · rw [if_neg h1, if_neg h1]
      by_cases h2 : sc.Mode = utils.SSLModeRequire
      · rw [if_pos h2, if_pos h2]
      · rw [if_neg h2, if_neg h2]
        by_cases h3 : sc.Mode = utils.SSLModeVerifyCA ∨ sc.Mode = utils.SSLModeVerifyFull
        · rw [if_pos h3, if_pos h3, hr]
          split_ifs <;> rfl
        · rw [if_neg h3, if_neg h3]

theorem applyTLS_verify_error (p : Stdlib) (c : Config) (cfg : mysql.Config)
    (reg : mysql.Registry) (sc : utils.SSLConfig) (e : String) (hs : c.SSLConfig = some sc)
    (hm : sc.Mode = utils.SSLModeVerifyCA ∨ sc.Mode = utils.SSLModeVerifyFull)
    (he : utils.CreateTLSConfiguration p (some sc) = .error e) :
    Config.URI.applyTLS p c cfg reg = (cfg, reg) := by
  have h1 : sc.Mode ≠ utils.SSLModeDisable := by
    rcases hm with h | h <;> rw [h] <;> decide
  have h2 : sc.Mode ≠ utils.SSLModeRequire := by
    rcases hm with h | h <;> rw [h] <;> decide
  unfold Config.URI.applyTLS
  rw [hs]
  simp only [h1, h2, hm, if_true, if_false]
  unfold registerTLSConfig
  rw [he]
  simp

theorem applyTLS_other (p : Stdlib) (c : Config) (cfg : mysql.Config)
    (reg : mysql.Registry) (sc : utils.SSLConfig) (hs : c.SSLConfig = some sc)
    (h1 : sc.Mode ≠ utils.SSLModeDisable) (h2 : sc.Mode ≠ utils.SSLModeRequire)
    (h3 : sc.Mode ≠ utils.SSLModeVerifyCA) (h4 : sc.Mode ≠ utils.SSLModeVerifyFull) :
    Config.URI.applyTLS p c cfg reg = (cfg, reg) := by
  unfold Config.URI.applyTLS
  rw [hs]
  simp only [h1, h2, h3, h4, or_self, if_false]

theorem applyTLS_host (p : Stdlib) (c1 c2 : Config) (cfg : mysql.Config) (reg : mysql.Registry)
    (hs : c1.SSLConfig = c2.SSLConfig) (hv : c1.TLSSkipVerify = c2.TLSSkipVerify)
    (hno : ∀ sc, c1.SSLConfig = some sc →
      (sc.Mode = utils.SSLModeVerifyCA ∨ sc.Mode = utils.SSLModeVerifyFull) →
      ∃ e, utils.CreateTLSConfiguration p (some sc) = .error e) :
    Config.URI.applyTLS p c1 cfg reg = Config.URI.applyTLS p c2 cfg reg := by
  cases h : c1.SSLConfig with
  | none =>
    rw [applyTLS_nil p c1 cfg reg h, applyTLS_nil p c2 cfg reg (hs ▸ h), hv]
  | some sc =>
    have h' : c2.SSLConfig = some sc := hs ▸ h
    by_cases hm : sc.Mode = utils.SSLModeVerifyCA ∨ sc.Mode = utils.SSLModeVerifyFull
    · obtain ⟨e, he⟩ := hno sc h hm
      rw [applyTLS_verify_error p c1 cfg reg sc e h hm he,
        applyTLS_verify_error p c2 cfg reg sc e h' hm he]
    · unfold Config.URI.applyTLS
      rw [h, h']
      simp only [hm, if_false]

theorem build_eq (p : Stdlib) (c : Config) (reg : mysql.Registry) :
    (Config.URI.build p c reg).1
      = { (Config.URI.applyTLS p (Config.URI.defaultPort c)
            (Config.URI.newCfg (Config.URI.defaultPort c)
              (Config.URI.hostStr (Config.URI.defaultPort c))) reg).1 with
          Params := c.JDBCURLParams } := by
  unfold Config.URI.build
  simp only [(defaultPort_fields c).2.2.2.2.2.1]
  split_ifs with hl
  · rfl
  · have hnil : c.JDBCURLParams = [] := by simpa using hl
    rw [hnil, applyTLS_frame]
    rfl

theorem defaultPort_idem (c : Config) :
    Config.URI.defaultPort (Config.URI.defaultPort c) = Config.URI.defaultPort c := by
  unfold Config.URI.defaultPort
  by_cases h : c.Port = 0
  · simp [h]
  · simp [h]

end driver

namespace driver

theorem profileName_escape (host : String) (port : Int)
    (hhost : ∀ ch ∈ host.data, url.shouldEscape ch.toNat .encodeQueryComponent = false) :
    url.QueryEscape ("custom-tls-" ++ host ++ "-" ++ fmt.Sprintf_d port)
      = "custom-tls-" ++ host ++ "-" ++ fmt.Sprintf_d port := by
  apply url.escape_eq_self
  intro ch hch
  simp only [String.data_append, List.mem_append] at hch
  rcases hch with ((hch | hch) | hch) | hch
  · revert ch
    decide
  · exact hhost ch hch
  · have : ch = '-' := by simpa using hch
    subst this
    decide
  · exact fmt.Sprintf_d_chars _ _ ch hch

theorem uri_no_clause (p : Stdlib) (c : Config) (reg : mysql.Registry)
    (h : ∀ cfg, Config.URI.applyTLS p (Config.URI.defaultPort c) cfg reg = (cfg, reg)) :
    (Config.URI p c reg).1
      = (Config.URI p { c with SSLConfig := none, TLSSkipVerify := false } reg).1 ∧
    (Config.URI p c reg).2.2 = reg ∧
    (Config.URI.build p c reg).1.TLSConfig = "" := by
  have hb : (Config.URI.build p c reg).1
      = (Config.URI.build p { c with SSLConfig := none, TLSSkipVerify := false } reg).1 := by
    rw [build_eq, build_eq, h,
      applyTLS_nil p _ _ reg (by rw [(defaultPort_fields _).2.2.2.2.2.2])]
    rw [(defaultPort_fields _).2.2.2.2.1]
    unfold Config.URI.defaultPort Config.URI.hostStr Config.URI.newCfg
    by_cases h0 : c.Port = 0 <;> simp [h0]
  refine ⟨?_, ?_, ?_⟩
  · unfold Config.URI
    simp only []
    rw [hb]
  · show (Config.URI.build p c reg).2.2 = reg
    rw [(build_applyTLS p c reg).2, h]
  · rw [(build_applyTLS p c reg).1, h]
    rfl

end driver

namespace mysql

theorem formatDSN_params_perm (cfg : Config) (m m' : List (String × String))
    (h : List.Perm m' m) (hn : (m.map Prod.fst).Nodup) :
    Config.FormatDSN { cfg with Params := m' } = Config.FormatDSN { cfg with Params := m } := by
  unfold Config.FormatDSN Config.writeAddress
  simp only [sortedKeys_perm m m' h, mapIndex_perm m m' h hn]

end mysql

namespace driver

theorem defaultPort_params (c : Config) (m : List (String × String)) :
    Config.URI.defaultPort { c with JDBCURLParams := m }
      = { Config.URI.defaultPort c with JDBCURLParams := m } := by
  unfold Config.URI.defaultPort
  by_cases h0 : c.Port = 0 <;> simp [h0]

/-- C12 (counterexample): with Mode verify-ca and certificate fields that parse,
the DSN for an empty Host names the profile `custom-tls--3306`, the DSN for the
Host `localhost` names it `custom-tls-localhost-3306`; the two DSNs differ. -/
theorem uri_host_default_counterexample :
    (Config.URI sampleStdlib { verifyCAConfig with Host := "" } emptyRegistry).1
      = "user:pass@tcp(localhost:3306)/testdb?checkConnLiveness=false&tls=custom-tls--3306&maxAllowedPacket=0" ∧
    (Config.URI sampleStdlib { verifyCAConfig with Host := "localhost" } emptyRegistry).1
      = "user:pass@tcp(localhost:3306)/testdb?checkConnLiveness=false&tls=custom-tls-localhost-3306&maxAllowedPacket=0" ∧
    (Config.URI sampleStdlib { verifyCAConfig with Host := "" } emptyRegistry).1
      ≠ (Config.URI sampleStdlib { verifyCAConfig with Host := "localhost" } emptyRegistry).1 := by
  refine ⟨?_, ?_, ?_⟩ <;> decide

/-- C12 (amended): the DSN for Port 0 equals the DSN for Port 3306, for every
config; the DSN for an empty Host equals the DSN for Host `localhost` whenever
no profile is registered (SSLConfig nil, a Mode other than verify-ca and
verify-full, or a verify mode whose profile cannot be built); when a verify
mode does build its profile, the profile name is made from the Host as written
and the two DSNs carry `tls=custom-tls--<port>` and
`tls=custom-tls-localhost-<port>`. -/
theorem uri_defaults (p : Stdlib) (c : Config) (reg : mysql.Registry) :
    (Config.URI p { c with Port := 0 } reg).1 = (Config.URI p { c with Port := 3306 } reg).1 ∧
    ((∀ sc, c.SSLConfig = some sc →
        (sc.Mode = utils.SSLModeVerifyCA ∨ sc.Mode = utils.SSLModeVerifyFull) →
        ∃ e, utils.CreateTLSConfiguration p (some sc) = .error e) →
      (Config.URI p { c with Host := "" } reg).1
        = (Config.URI p { c with Host := "localhost" } reg).1) ∧
    (∀ sc prof, c.SSLConfig = some sc →
        (sc.Mode = utils.SSLModeVerifyCA ∨ sc.Mode = utils.SSLModeVerifyFull) →
        utils.CreateTLSConfiguration p (some sc) = .ok prof →
      Contains (Config.URI p { c with Host := "" } reg).1
        ("tls=custom-tls--" ++ fmt.Sprintf_d (if c.Port = 0 then 3306 else c.Port)) ∧
      Contains (Config.URI p { c with Host := "localhost" } reg).1
        ("tls=custom-tls-localhost-" ++ fmt.Sprintf_d (if c.Port = 0 then 3306 else c.Port))) := by
  refine ⟨?_, ?_, ?_⟩
  · have hd : Config.URI.defaultPort { c with Port := 0 }
        = Config.URI.defaultPort { c with Port := 3306 } := by
      unfold Config.URI.defaultPort
      simp
    unfold Config.URI Config.URI.build
    simp only [hd]
  · intro hno
    have hb : (Config.URI.build p { c with Host := "" } reg).1
        = (Config.URI.build p { c with Host := "localhost" } reg).1 := by
      rw [build_eq, build_eq]
      have ha := applyTLS_host p (Config.URI.defaultPort { c with Host := "" })
        (Config.URI.defaultPort { c with Host := "localhost" })
        (Config.URI.newCfg (Config.URI.defaultPort { c with Host := "" })
          (Config.URI.hostStr (Config.URI.defaultPort { c with Host := "" }))) reg
        (by rw [(defaultPort_fields _).2.2.2.2.2.2, (defaultPort_fields _).2.2.2.2.2.2])
        (by rw [(defaultPort_fields _).2.2.2.2.1, (defaultPort_fields _).2.2.2.2.1])
        (by
          intro sc hsc
          rw [(defaultPort_fields _).2.2.2.2.2.2] at hsc
          exact hno sc hsc)
      rw [ha]
      have hn : Config.URI.newCfg (Config.URI.defaultPort { c with Host := "" })
            (Config.URI.hostStr (Config.URI.defaultPort { c with Host := "" }))
          = Config.URI.newCfg (Config.URI.defaultPort { c with Host := "localhost" })
            (Config.URI.hostStr (Config.URI.defaultPort { c with Host := "localhost" })) := by
        unfold Config.URI.defaultPort Config.URI.hostStr Config.URI.newCfg
        by_cases h0 : c.Port = 0 <;> simp [h0]
      rw [hn]
    unfold Config.URI
    simp only []
    rw [hb]
  · intro sc prof hs hm hprof
    have key : ∀ host : String,
        (∀ ch ∈ host.data, url.shouldEscape ch.toNat .encodeQueryComponent = false) →
        Contains (Config.URI p { c with Host := host } reg).1
          ("tls=" ++ ("custom-tls-" ++ host ++ "-" ++
            fmt.Sprintf_d (if c.Port = 0 then 3306 else c.Port))) := by
      intro host hhost
      have hs' : (Config.URI.defaultPort { c with Host := host }).SSLConfig = some sc := by
        rw [(defaultPort_fields _).2.2.2.2.2.2]; exact hs
      have h1 := (build_applyTLS p { c with Host := host } reg).1
      rw [applyTLS_verify_ok p _ _ reg sc prof hs' hm hprof] at h1
      simp only [(defaultPort_fields _).1, defaultPort_port] at h1
      have hne : (Config.URI.build p { c with Host := host } reg).1.TLSConfig ≠ "" := by
        rw [h1]
        intro he
        have := profileName_length host (fmt.Sprintf_d (if c.Port = 0 then 3306 else c.Port))
        rw [he] at this
        exact absurd this (by decide)
      have hc := contains_tls_clause p { c with Host := host } reg hne
      rw [h1, profileName_escape host _ hhost] at hc
      exact hc
    have e1 : "tls=custom-tls--" ++ fmt.Sprintf_d (if c.Port = 0 then 3306 else c.Port)
        = "tls=" ++ ("custom-tls-" ++ "" ++ "-" ++
            fmt.Sprintf_d (if c.Port = 0 then 3306 else c.Port)) := by
      apply String.ext
      simp [String.data_append]
    have e2 : "tls=custom-tls-localhost-" ++ fmt.Sprintf_d (if c.Port = 0 then 3306 else c.Port)
        = "tls=" ++ ("custom-tls-" ++ "localhost" ++ "-" ++
            fmt.Sprintf_d (if c.Port = 0 then 3306 else c.Port)) := by
      apply String.ext
      simp [String.data_append]
    rw [e1, e2]
    exact ⟨key "" (by decide), key "localhost" (by decide)⟩

/-- Witness for C12 (amended): a verify-ca config whose ServerCA is empty, so
that no profile can be built. -/
theorem uri_defaults_witness :
    (Config.URI sampleStdlib
        { testConfig (some ⟨"verify-ca", "", "", ""⟩) with Host := "" } emptyRegistry).1
      = (Config.URI sampleStdlib
        { testConfig (some ⟨"verify-ca", "", "", ""⟩) with Host := "localhost" }
        emptyRegistry).1 :=
  (uri_defaults sampleStdlib (testConfig (some ⟨"verify-ca", "", "", ""⟩)) emptyRegistry).2.1
    (fun sc hsc _ => ⟨"failed to append server CA certificate", by
      cases hsc
      rfl⟩)

end driver

namespace driver

/-- C13: a second call of `URI` on the receiver and the registry that the first
call left behind returns the string the first call returned; and the DSN is the
same for every order in which the entries of JDBCURLParams are listed. -/
theorem uri_repeatable (p : Stdlib) (c : Config) (reg : mysql.Registry) :
    (Config.URI p (Config.URI p c reg).2.1 (Config.URI p c reg).2.2).1 = (Config.URI p c reg).1 ∧
    (∀ m' : List (String × String), List.Perm m' c.JDBCURLParams →
      (c.JDBCURLParams.map Prod.fst).Nodup →
      (Config.URI p { c with JDBCURLParams := m' } reg).1 = (Config.URI p c reg).1) := by
  constructor
  · have hr : (Config.URI p c reg).2.1 = Config.URI.defaultPort c := rfl
    have hb : (Config.URI.build p (Config.URI.defaultPort c) (Config.URI p c reg).2.2).1
        = (Config.URI.build p c reg).1 := by
      rw [build_eq, build_eq, defaultPort_idem,
        applyTLS_fst_reg p _ _ (Config.URI p c reg).2.2 reg, (defaultPort_fields c).2.2.2.2.2.1]
    rw [hr]
    unfold Config.URI
    simp only []
    exact congrArg mysql.Config.FormatDSN hb
  · intro m' hperm hn
    have ha : Config.URI.applyTLS p (Config.URI.defaultPort { c with JDBCURLParams := m' })
          (Config.URI.newCfg (Config.URI.defaultPort { c with JDBCURLParams := m' })
            (Config.URI.hostStr (Config.URI.defaultPort { c with JDBCURLParams := m' }))) reg
        = Config.URI.applyTLS p (Config.URI.defaultPort c)
          (Config.URI.newCfg (Config.URI.defaultPort c)
            (Config.URI.hostStr (Config.URI.defaultPort c))) reg := by
      rw [defaultPort_params]
      exact applyTLS_congr p _ _ _ reg rfl rfl rfl rfl
    unfold Config.URI
    simp only []
    rw [build_eq, build_eq, ha]
    exact mysql.formatDSN_params_perm _ _ _ hperm hn

/-- Witness for C13: the two extra parameters of `TestURIWithJDBCParams`, listed
in either order. -/
theorem uri_repeatable_witness :
    (Config.URI sampleStdlib
        { testConfig none with
          JDBCURLParams := [("useSSL", "true"), ("connectTimeout", "30000")] } emptyRegistry).1
      = (Config.URI sampleStdlib
        { testConfig none with
          JDBCURLParams := [("connectTimeout", "30000"), ("useSSL", "true")] } emptyRegistry).1 :=
  (uri_repeatable sampleStdlib
    { testConfig none with JDBCURLParams := [("connectTimeout", "30000"), ("useSSL", "true")] }
    emptyRegistry).2 [("useSSL", "true"), ("connectTimeout", "30000")]
    (List.Perm.swap _ _ _) (by decide)

/-- C15: when `CreateTLSConfiguration` fails for a config with Mode verify-ca or
verify-full, `URI` still returns a DSN, that DSN is the one of the same config
with SSLConfig nil and TLSSkipVerify false, the driver config carries no TLS
clause, and the registry is left as it was. -/
theorem uri_silent_fallback (p : Stdlib) (c : Config) (reg : mysql.Registry)
    (sc : utils.SSLConfig) (e : String) (hs : c.SSLConfig = some sc)
    (hm : sc.Mode = utils.SSLModeVerifyCA ∨ sc.Mode = utils.SSLModeVerifyFull)
    (he : utils.CreateTLSConfiguration p (some sc) = .error e) :
    (Config.URI p c reg).1
      = (Config.URI p { c with SSLConfig := none, TLSSkipVerify := false } reg).1 ∧
    (Config.URI p c reg).2.2 = reg ∧
    (Config.URI.build p c reg).1.TLSConfig = "" :=
  uri_no_clause p c reg (fun cfg =>
    applyTLS_verify_error p _ cfg reg sc e
      (by rw [(defaultPort_fields c).2.2.2.2.2.2, hs]) hm he)

/-- Witness for C15: the verify-ca config of `TestConfigValidation` with its
certificate fields missing. -/
theorem uri_silent_fallback_witness :
    (Config.URI sampleStdlib (testConfig (some ⟨"verify-ca", "", "", ""⟩)) emptyRegistry).1
      = (Config.URI sampleStdlib
          { testConfig (some ⟨"verify-ca", "", "", ""⟩) with
            SSLConfig := none, TLSSkipVerify := false } emptyRegistry).1 :=
  (uri_silent_fallback sampleStdlib (testConfig (some ⟨"verify-ca", "", "", ""⟩)) emptyRegistry
    ⟨"verify-ca", "", "", ""⟩ "failed to append server CA certificate" rfl (Or.inl rfl) rfl).1

/-- C20: an SSLConfig whose Mode is a non-empty string other than disable,
require, verify-ca and verify-full passes `Validate` whatever its certificate
fields hold, and `URI` sets no TLS clause for it: the driver config's TLS
clause is empty, the registry is left as it was, and the DSN is the one of the
same config with SSLConfig nil and TLSSkipVerify false. -/
theorem unknown_mode_no_clause (p : Stdlib) (c : Config) (reg : mysql.Registry)
    (sc : utils.SSLConfig) (hs : c.SSLConfig = some sc) (h0 : sc.Mode ≠ "")
    (h1 : sc.Mode ≠ utils.SSLModeDisable) (h2 : sc.Mode ≠ utils.SSLModeRequire)
    (h3 : sc.Mode ≠ utils.SSLModeVerifyCA) (h4 : sc.Mode ≠ utils.SSLModeVerifyFull) :
    utils.SSLConfig.Validate (some sc) = none ∧
    (Config.URI.build p c reg).1.TLSConfig = "" ∧
    (Config.URI p c reg).2.2 = reg ∧
    (Config.URI p c reg).1
      = (Config.URI p { c with SSLConfig := none, TLSSkipVerify := false } reg).1 := by
  obtain ⟨hd, hr, ht⟩ := uri_no_clause p c reg (fun cfg =>
    applyTLS_other p _ cfg reg sc (by rw [(defaultPort_fields c).2.2.2.2.2.2, hs]) h1 h2 h3 h4)
  refine ⟨?_, ht, hr, hd⟩
  simp [utils.SSLConfig.Validate, utils.Unknown, h0, h3, h4]

/-- Witness for C20: the Mode `prefer` on the test config with TLSSkipVerify set. -/
theorem unknown_mode_no_clause_witness :
    utils.SSLConfig.Validate (some ⟨"prefer", "", "", ""⟩) = none ∧
    (Config.URI.build sampleStdlib
      { testConfig (some ⟨"prefer", "", "", ""⟩) with TLSSkipVerify := true }
      emptyRegistry).1.TLSConfig = "" :=
  have h := unknown_mode_no_clause sampleStdlib
    { testConfig (some ⟨"prefer", "", "", ""⟩) with TLSSkipVerify := true } emptyRegistry
    ⟨"prefer", "", "", ""⟩ rfl (by decide) (by decide) (by decide) (by decide) (by decide)
  ⟨h.1, h.2.1⟩

end driver

namespace utils

/-- C14: an SSLConfig that `Validate` accepts and whose ServerCA and
ClientCert/ClientKey parse gets a profile and no error from
`CreateTLSConfiguration`. -/
theorem createTLS_ok_of_valid (p : Stdlib) (sc : SSLConfig) (pool : x509.CertPool)
    (pair : tls.Certificate) (_hv : SSLConfig.Validate (some sc) = none)
    (hca : p.AppendCertsFromPEM sc.ServerCA = some pool)
    (hpair : p.X509KeyPair sc.ClientCert sc.ClientKey = .ok pair) :
    ∃ prof, CreateTLSConfiguration p (some sc) = .ok prof := by
  by_cases hm : sc.Mode = SSLModeVerifyCA ∨ sc.Mode = SSLModeVerifyFull
  · obtain ⟨prof, h, -⟩ := createTLS_verify p sc pool pair hm hca hpair
    exact ⟨prof, h⟩
  · unfold CreateTLSConfiguration
    simp only [hm, if_false]
    split_ifs <;> exact ⟨_, rfl⟩

/-- Witness for C14: the verify-ca config of `TestConfigValidation`. -/
theorem createTLS_ok_of_valid_witness :
    ∃ prof, CreateTLSConfiguration sampleStdlib
      (some ⟨"verify-ca", "ca-cert", "client-cert", "client-key"⟩) = .ok prof :=
  createTLS_ok_of_valid sampleStdlib ⟨"verify-ca", "ca-cert", "client-cert", "client-key"⟩
    ["ca-cert"] ("client-cert", "client-key") (by decide) rfl rfl

/-- C16: for an SSLConfig with Mode verify-ca or verify-full that `Validate`
accepts, `CreateTLSConfiguration` fails if and only if ServerCA yields no
certificate or the client pair does not parse; without a certificate from
ServerCA the error is `failed to append server CA certificate` whatever the
client pair does, and when only the pair fails the error is
`failed to load client certificate and key: ` followed by the parser's message. -/
theorem createTLS_error_iff (p : Stdlib) (sc : SSLConfig)
    (hm : sc.Mode = SSLModeVerifyCA ∨ sc.Mode = SSLModeVerifyFull)
    (hv : SSLConfig.Validate (some sc) = none) :
    ((∃ e, CreateTLSConfiguration p (some sc) = .error e) ↔
      (p.AppendCertsFromPEM sc.ServerCA = none ∨
        ∃ msg, p.X509KeyPair sc.ClientCert sc.ClientKey = .error msg)) ∧
    (p.AppendCertsFromPEM sc.ServerCA = none →
      CreateTLSConfiguration p (some sc) = .error "failed to append server CA certificate") ∧
    (∀ pool msg, p.AppendCertsFromPEM sc.ServerCA = some pool →
      p.X509KeyPair sc.ClientCert sc.ClientKey = .error msg →
      CreateTLSConfiguration p (some sc)
        = .error ("failed to load client certificate and key: " ++ msg)) := by
  have hu : sc.Mode ≠ Unknown := by
    rcases hm with h | h <;> rw [h] <;> decide
  have hne : sc.ClientCert ≠ "" ∧ sc.ClientKey ≠ "" := by
    simp only [SSLConfig.Validate, hu, hm, if_true, if_false] at hv
    split_ifs at hv with a b c
    exact ⟨b, c⟩
  have hA : p.AppendCertsFromPEM sc.ServerCA = none →
      CreateTLSConfiguration p (some sc) = .error "failed to append server CA certificate" := by
    intro h
    simp [CreateTLSConfiguration, hm, h]
  have hB : ∀ pool msg, p.AppendCertsFromPEM sc.ServerCA = some pool →
      p.X509KeyPair sc.ClientCert sc.ClientKey = .error msg →
      CreateTLSConfiguration p (some sc)
        = .error ("failed to load client certificate and key: " ++ msg) := by
    intro pool msg h1 h2
    simp [CreateTLSConfiguration, hm, h1, h2, hne]
  refine ⟨⟨?_, ?_⟩, hA, hB⟩
  · rintro ⟨e, he⟩
    cases h1 : p.AppendCertsFromPEM sc.ServerCA with
    | none => exact Or.inl rfl
    | some pool =>
      right
      cases h2 : p.X509KeyPair sc.ClientCert sc.ClientKey with
      | error msg => exact ⟨msg, rfl⟩
      | ok pair =>
        obtain ⟨prof, hp, -⟩ := createTLS_verify p sc pool pair hm h1 h2
        rw [hp] at he
        cases he
  · rintro (h | ⟨msg, h⟩)
    · exact ⟨_, hA h⟩
    · cases h1 : p.AppendCertsFromPEM sc.ServerCA with
      | none => exact ⟨_, hA h1⟩
      | some pool => exact ⟨_, hB pool msg h1 h⟩

/-- Witness for C16: a verify-full config with all three fields set, under
parsers that reject every ServerCA. -/
theorem createTLS_error_iff_witness :
    CreateTLSConfiguration
        { AppendCertsFromPEM := fun _ => none, X509KeyPair := sampleStdlib.X509KeyPair,
          ToLower := sampleStdlib.ToLower }
        (some ⟨"verify-full", "ca-cert", "client-cert", "client-key"⟩)
      = .error "failed to append server CA certificate" :=
  (createTLS_error_iff
    { AppendCertsFromPEM := fun _ => none, X509KeyPair := sampleStdlib.X509KeyPair,
      ToLower := sampleStdlib.ToLower }
    ⟨"verify-full", "ca-cert", "client-cert", "client-key"⟩ (Or.inr rfl) (by decide)).2.1 rfl

end utils

/-! ## Lemmas: a formatted number determines the number -/

namespace fmt

theorem digitChar_val (k : Nat) (h : k < 10) : (Nat.digitChar k).toNat - 48 = k := by
  interval_cases k <;> decide

theorem toDigitsCore_value (fuel : Nat) :
    ∀ (n : Nat) (ds : List Char), n < fuel →
      (Nat.toDigitsCore 10 fuel n ds).foldl (fun a c => 10 * a + (c.toNat - 48)) 0
        = ds.foldl (fun a c => 10 * a + (c.toNat - 48)) n := by
  induction fuel with
  | zero => intro n ds h; omega
  | succ f ih =>
    intro n ds h
    unfold Nat.toDigitsCore
    simp only []
    have hd : (Nat.digitChar (n % 10)).toNat - 48 = n % 10 :=
      digitChar_val _ (Nat.mod_lt _ (by decide))
    split_ifs with h0
    · rw [List.foldl_cons, hd]
      have : n % 10 = n := by omega
      simp [this]
    · rw [ih (n / 10) _ (by omega), List.foldl_cons, hd]
      have : 10 * (n / 10) + n % 10 = n := by omega
      rw [this]

theorem repr_value (n : Nat) :
    (Nat.repr n).data.foldl (fun a c => 10 * a + (c.toNat - 48)) 0 = n := by
  have h := toDigitsCore_value (n + 1) n [] (by omega)
  simpa using h

theorem repr_injective (m n : Nat) (h : Nat.repr m = Nat.repr n) : m = n := by
  rw [← repr_value m, ← repr_value n, h]

theorem repr_no_dash (n : Nat) : '-' ∉ (Nat.repr n).data := by
  intro h
  exact absurd (repr_chars n '-' h) (by decide)

end fmt

theorem append_cons_inj {α : Type} (x : α) (a b a' b' : List α) (hb : x ∉ b) (hb' : x ∉ b')
    (h : a ++ x :: b = a' ++ x :: b') : a = a' ∧ b = b' := by
  rcases List.append_eq_append_iff.mp h with ⟨t, ht, hc⟩ | ⟨t, ht, hc⟩
  · cases t with
    | nil => simp at ht hc; exact ⟨ht.symm, hc⟩
    | cons y t' =>
      simp only [List.cons_append, List.cons.injEq] at hc
      exact absurd (hc.2 ▸ (by simp : x ∈ t' ++ x :: b')) hb
  · cases t with
    | nil => simp at ht hc; exact ⟨ht, hc.symm⟩
    | cons y t' =>
      simp only [List.cons_append, List.cons.injEq] at hc
      exact absurd (hc.2 ▸ (by simp : x ∈ t' ++ x :: b)) hb'

namespace driver

theorem profileName_inj (h1 h2 : String) (p1 p2 : Int) (hp1 : 1 ≤ p1) (hp2 : 1 ≤ p2)
    (h : "custom-tls-" ++ h1 ++ "-" ++ fmt.Sprintf_d p1
      = "custom-tls-" ++ h2 ++ "-" ++ fmt.Sprintf_d p2) : h1 = h2 ∧ p1 = p2 := by
  obtain ⟨n1, rfl⟩ : ∃ n : Nat, p1 = Int.ofNat n := ⟨p1.toNat, by simp; omega⟩
  obtain ⟨n2, rfl⟩ : ∃ n : Nat, p2 = Int.ofNat n := ⟨p2.toNat, by simp; omega⟩
  have hd := congrArg String.data h
  simp only [String.data_append, fmt.Sprintf_d, List.append_assoc] at hd
  have hd' := List.append_cancel_left hd
  simp only [List.singleton_append] at hd'
  obtain ⟨ha, hb⟩ := append_cons_inj '-' _ _ _ _ (fmt.repr_no_dash n1) (fmt.repr_no_dash n2) hd'
  refine ⟨String.ext ha, ?_⟩
  have := fmt.repr_injective n1 n2 (String.ext hb)
  rw [this]

end driver

/-! ## Theorems: the profile name, registration and `Config.Validate` -/

namespace driver

theorem profileName_not_reserved (p : Stdlib) (host tail : String) :
    (mysql.readBool ("custom-tls-" ++ host ++ "-" ++ tail)).2 = false ∧
    strings.ToLower p ("custom-tls-" ++ host ++ "-" ++ tail) ≠ "skip-verify" ∧
    strings.ToLower p ("custom-tls-" ++ host ++ "-" ++ tail) ≠ "preferred" := by
  have hlen := profileName_length host tail
  have hne : ∀ r : String, r.data.length < 12 → "custom-tls-" ++ host ++ "-" ++ tail ≠ r := by
    intro r hr he
    rw [he] at hlen
    omega
  have hlow : ∀ r : String, r.data.length < 12 →
      strings.ToLower p ("custom-tls-" ++ host ++ "-" ++ tail) ≠ r := by
    intro r hr he
    have : (strings.ToLower p ("custom-tls-" ++ host ++ "-" ++ tail)).data.length
        = ("custom-tls-" ++ host ++ "-" ++ tail).data.length := by
      simp [strings.ToLower]
    rw [he] at this
    omega
  refine ⟨?_, hlow "skip-verify" (by decide), hlow "preferred" (by decide)⟩
  unfold mysql.readBool
  simp [hne "1" (by decide), hne "true" (by decide), hne "TRUE" (by decide),
    hne "True" (by decide), hne "0" (by decide), hne "false" (by decide),
    hne "FALSE" (by decide), hne "False" (by decide)]

/-- C18: for ports in 1..65535 the profile name determines host and port: the
names `custom-tls-<h1>-<p1>` and `custom-tls-<h2>-<p2>` are equal only if
h1 = h2 and p1 = p2, and two configs for which `URI` registers a profile get
the same name in their driver configs only if they agree in Host and Port. -/
theorem profileName_distinct_endpoints (h1 h2 : String) (p1 p2 : Int)
    (hp1 : 1 ≤ p1 ∧ p1 ≤ 65535) (hp2 : 1 ≤ p2 ∧ p2 ≤ 65535) :
    ("custom-tls-" ++ h1 ++ "-" ++ fmt.Sprintf_d p1
        = "custom-tls-" ++ h2 ++ "-" ++ fmt.Sprintf_d p2 → h1 = h2 ∧ p1 = p2) ∧
    (∀ (p : Stdlib) (c1 c2 : Config) (reg1 reg2 : mysql.Registry) (sc1 sc2 : utils.SSLConfig)
        (prof1 prof2 : tls.Config),
      c1.Host = h1 → c1.Port = p1 → c2.Host = h2 → c2.Port = p2 →
      c1.SSLConfig = some sc1 → c2.SSLConfig = some sc2 →
      (sc1.Mode = utils.SSLModeVerifyCA ∨ sc1.Mode = utils.SSLModeVerifyFull) →
      (sc2.Mode = utils.SSLModeVerifyCA ∨ sc2.Mode = utils.SSLModeVerifyFull) →
      utils.CreateTLSConfiguration p (some sc1) = .ok prof1 →
      utils.CreateTLSConfiguration p (some sc2) = .ok prof2 →
      (Config.URI.build p c1 reg1).1.TLSConfig = (Config.URI.build p c2 reg2).1.TLSConfig →
      h1 = h2 ∧ p1 = p2) := by
  refine ⟨profileName_inj h1 h2 p1 p2 hp1.1 hp2.1, ?_⟩
  intro p c1 c2 reg1 reg2 sc1 sc2 prof1 prof2 hh1 hq1 hh2 hq2 hs1 hs2 hm1 hm2 hc1 hc2 heq
  have name : ∀ (c : Config) (reg : mysql.Registry) (sc : utils.SSLConfig) (prof : tls.Config),
      c.SSLConfig = some sc →
      (sc.Mode = utils.SSLModeVerifyCA ∨ sc.Mode = utils.SSLModeVerifyFull) →
      utils.CreateTLSConfiguration p (some sc) = .ok prof → c.Port ≠ 0 →
      (Config.URI.build p c reg).1.TLSConfig
        = "custom-tls-" ++ c.Host ++ "-" ++ fmt.Sprintf_d c.Port := by
    intro c reg sc prof hs hm hc h0
    have hs' : (Config.URI.defaultPort c).SSLConfig = some sc := by
      rw [(defaultPort_fields c).2.2.2.2.2.2, hs]
    rw [(build_applyTLS p c reg).1, applyTLS_verify_ok p _ _ reg sc prof hs' hm hc]
    simp only [(defaultPort_fields c).1, defaultPort_port, if_neg h0]
  rw [name c1 reg1 sc1 prof1 hs1 hm1 hc1 (by rw [hq1]; omega),
    name c2 reg2 sc2 prof2 hs2 hm2 hc2 (by rw [hq2]; omega), hh1, hh2, hq1, hq2] at heq
  exact profileName_inj h1 h2 p1 p2 hp1.1 hp2.1 heq

/-- Witness for C18: the names for `db-1` on port 2 and for `db` on port 12 are
not the same. -/
theorem profileName_distinct_endpoints_witness :
    "custom-tls-" ++ "db-1" ++ "-" ++ fmt.Sprintf_d 2
      ≠ "custom-tls-" ++ "db" ++ "-" ++ fmt.Sprintf_d 12 :=
  fun h => absurd
    ((profileName_distinct_endpoints "db-1" "db" 2 12 (by decide) (by decide)).1 h).2
    (by decide)

/-- C19: the name `custom-tls-<host>-<port>` is never a reserved key of the
driver's registry (not a boolean literal, not `skip-verify` or `preferred` once
lower-cased), so `registerTLSConfig` returns an error exactly when
`CreateTLSConfiguration` does, and then the same error. -/
theorem registerTLSConfig_error_iff (p : Stdlib) (host : String) (port : Int)
    (sslConfig : Option utils.SSLConfig) (reg : mysql.Registry) :
    (mysql.readBool ("custom-tls-" ++ host ++ "-" ++ fmt.Sprintf_d port)).2 = false ∧
    strings.ToLower p ("custom-tls-" ++ host ++ "-" ++ fmt.Sprintf_d port) ≠ "skip-verify" ∧
    strings.ToLower p ("custom-tls-" ++ host ++ "-" ++ fmt.Sprintf_d port) ≠ "preferred" ∧
    (∀ e, (registerTLSConfig p ("custom-tls-" ++ host ++ "-" ++ fmt.Sprintf_d port)
          sslConfig reg).1 = some e
        ↔ utils.CreateTLSConfiguration p sslConfig = .error e) ∧
    ((registerTLSConfig p ("custom-tls-" ++ host ++ "-" ++ fmt.Sprintf_d port)
          sslConfig reg).1 = none
        ↔ ∃ prof, utils.CreateTLSConfiguration p sslConfig = .ok prof) := by
  obtain ⟨hb, hs, hp⟩ := profileName_not_reserved p host (fmt.Sprintf_d port)
  refine ⟨hb, hs, hp, ?_, ?_⟩
  · intro e
    unfold registerTLSConfig
    cases hc : utils.CreateTLSConfiguration p sslConfig with
    | error e' =>
      simp only [Option.some.injEq]
      constructor
      · intro h; rw [h]
      · intro h; cases h; rfl
    | ok prof =>
      simp only [registerTLS_profileName]
      constructor
      · intro h; cases h
      · intro h; cases h
  · unfold registerTLSConfig
    cases hc : utils.CreateTLSConfiguration p sslConfig with
    | error e' =>
      simp only []
      constructor
      · intro h; cases h
      · rintro ⟨prof, h⟩; cases h
    | ok prof =>
      simp only []
      rw [registerTLS_profileName]
      exact ⟨fun _ => ⟨prof, rfl⟩, fun _ => rfl⟩

/-- C17: a config that passes the host, port, username and password checks and
whose SSLConfig is rejected by `SSLConfig.Validate` gets the error
`invalid SSL configuration: ` followed by the message of that rejection; a
config whose SSLConfig is nil or accepted gets one of the errors of the earlier
checks or whatever the generic struct check returns, never one made by the SSL
check. -/
theorem config_validate_ssl (d : Deps) (c : Config) :
    (c.Host ≠ "" → ¬ (Contains c.Host "https" ∨ Contains c.Host "http") →
      ¬ (c.Port ≤ 0 ∨ c.Port > 65535) → c.Username ≠ "" → c.Password ≠ "" →
      ∀ sc err, c.SSLConfig = some sc → utils.SSLConfig.Validate (some sc) = some err →
        (Config.Validate d c).1 = some ("invalid SSL configuration: " ++ err)) ∧
    ((c.SSLConfig = none ∨
        ∃ sc, c.SSLConfig = some sc ∧ utils.SSLConfig.Validate (some sc) = none) →
      (Config.Validate d c).1 = some "empty host name" ∨
      (Config.Validate d c).1 = some ("host should not contain http or https: " ++ c.Host) ∨
      (Config.Validate d c).1 = some "invalid port number: must be between 1 and 65535" ∨
      (Config.Validate d c).1 = some "username is required" ∨
      (Config.Validate d c).1 = some "password is required" ∨
      (Config.Validate d c).1 = d.Validate (Config.Validate d c).2) := by
  have hssl : ∀ c' : Config,
      (if c'.RetryCount ≤ 0 then { c' with RetryCount := d.DefaultRetryCount } else c').SSLConfig
        = c'.SSLConfig := by
    intro c'; split_ifs <;> rfl
  have hssl2 : ∀ c' : Config,
      (if c'.MaxThreads ≤ 0 then { c' with MaxThreads := d.DefaultThreadCount } else c').SSLConfig
        = c'.SSLConfig := by
    intro c'; split_ifs <;> rfl
  have hssl3 : (if c.Database = "" then { c with Database := "mysql" } else c).SSLConfig
        = c.SSLConfig := by
    split_ifs <;> rfl
  constructor
  · intro hh hhttp hport hu hpw sc err hs hv
    unfold Config.Validate
    rw [if_neg hh, if_neg hhttp, if_neg hport, if_neg hu, if_neg hpw]
    simp only []
    split
    · rename_i sc' heq
      rw [hssl, hssl2, hssl3, hs] at heq
      cases heq
      rw [hv]
    · rename_i heq
      rw [hssl, hssl2, hssl3, hs] at heq
      cases heq
  · intro hs
    unfold Config.Validate
    by_cases hh : c.Host = ""
    · rw [if_pos hh]; exact Or.inl rfl
    rw [if_neg hh]
    by_cases hhttp : Contains c.Host "https" ∨ Contains c.Host "http"
    · rw [if_pos hhttp]; exact Or.inr (Or.inl rfl)
    rw [if_neg hhttp]
    by_cases hport : c.Port ≤ 0 ∨ c.Port > 65535
    · rw [if_pos hport]; exact Or.inr (Or.inr (Or.inl rfl))
    rw [if_neg hport]
    by_cases hu : c.Username = ""
    · rw [if_pos hu]; exact Or.inr (Or.inr (Or.inr (Or.inl rfl)))
    rw [if_neg hu]
    by_cases hpw : c.Password = ""
    · rw [if_pos hpw]; exact Or.inr (Or.inr (Or.inr (Or.inr (Or.inl rfl))))
    rw [if_neg hpw]
    right; right; right; right; right
    simp only []
    split
    · rename_i sc' heq
      rw [hssl, hssl2, hssl3] at heq
      rcases hs with hs | ⟨sc, hs, hv⟩
      · rw [hs] at heq; cases heq
      · rw [hs] at heq
        cases heq
        rw [hv]
    · rfl

/-- Witness for C17: the second config of `TestConfigValidation`, verify-ca
with its certificate fields missing. -/
theorem config_validate_ssl_witness :
    (Config.Validate sampleDeps (testConfig (some ⟨"verify-ca", "", "", ""⟩))).1
      = some ("invalid SSL configuration: " ++ "'ssl.server_ca' is required parameter") :=
  (config_validate_ssl sampleDeps (testConfig (some ⟨"verify-ca", "", "", ""⟩))).1
    (by decide) (by decide) (by decide) (by decide) (by decide)
    ⟨"verify-ca", "", "", ""⟩ "'ssl.server_ca' is required parameter" rfl (by decide)

end driver
